import Mathlib

/-!
Verification of the puzzle geometry and assembly engine.

This file gives a shallow embedding of the core of the repository:
the geometry utilities (src/unnamed/part_002, "geometry.ts"), the grid
tessellation generator (src/src/puzzleGenerator.ts), the organic Voronoi
generator variant (appended to src/src/usePuzzleStore.ts), and the assembly
store reducer with its snap/merge algorithm (src/src/usePuzzleStore.ts).

Modelling conventions:
* JavaScript numbers are modelled as real numbers (`Real`); the trigonometric
  functions and square roots in the source are `Real.cos`, `Real.sin`,
  `Real.sqrt`.  The JS remainder operator `%` (sign of the dividend,
  truncated division) is modelled exactly by `jsRem`.
* `Math.random()` values are modelled as an explicit stream `rnd : Nat -> Real`
  of values in [0,1), indexed in the order the source draws them.
* The fresh group ids produced by the template literal
  "group-" + Date.now() + "-" + randomSuffix are modelled as an
  environment-supplied stream `gid : Nat -> String` (one per merge in a call).
* The SVG path strings (`buildPiecePath` and the `path`/`paths` fields) are
  presentation-only data: they require formatting real numbers as decimal
  strings and are read by no store operation, so they are not modelled.  The
  tab/blank direction computation that feeds them (the `topDir`/`rightDir`/
  `bottomDir`/`leftDir` classification in `puzzleGenerator.ts`) is modelled
  faithfully.
* `d3-delaunay` is an external library: the organic generator is parametrised
  by the final tessellation it returns (a neighbor function `dn` and a cell
  polygon function `cellPoly`).
-/

namespace Puzzle

/-- A 2D point, source: `type Point = [number, number]`. -/
abbrev Point := ℝ × ℝ

/-! ## Geometry utilities (geometry.ts) -/

/-- Euclidean distance, source `dist` in geometry.ts:
`Math.sqrt((a[0] - b[0]) ** 2 + (a[1] - b[1]) ** 2)`. -/
noncomputable def dist (a b : Point) : ℝ :=
  Real.sqrt ((a.1 - b.1) ^ 2 + (a.2 - b.2) ^ 2)

/-- Centroid of a set of polygons, source `groupCentroid` in geometry.ts:
arithmetic mean of all vertices of all polygons. -/
noncomputable def groupCentroid (polys : List (List Point)) : Point :=
  let pts := polys.flatten
  ((pts.map Prod.fst).sum / pts.length, (pts.map Prod.snd).sum / pts.length)

/-- Truncation toward zero of a real number, the rounding used by the JS `%`
remainder operator. -/
noncomputable def realTrunc (x : ℝ) : ℤ :=
  if 0 ≤ x then ⌊x⌋ else -⌊-x⌋

/-- The JavaScript remainder operator `a % n` on numbers: `a - n * trunc (a / n)`,
so the result has the sign of the dividend `a`. -/
noncomputable def jsRem (a n : ℝ) : ℝ :=
  a - n * realTrunc (a / n)

/-! ## Decimal rendering of natural numbers

The source interpolates array indices into id strings with template literals
("piece-" + i).  `natChars` renders a natural number in decimal exactly as JS
number-to-string conversion does for integers. -/

/-- Decimal digit characters, fuel-indexed so the recursion is structural
(the fuel `n + 1` always suffices since `n / 10 < n` for `n ≥ 10`). -/
def natCharsAux : ℕ → ℕ → List Char
  | 0, _ => []
  | fuel + 1, n =>
    if n < 10 then [Nat.digitChar n]
    else natCharsAux fuel (n / 10) ++ [Nat.digitChar (n % 10)]

/-- Decimal digit characters of a natural number, most significant first. -/
def natChars (n : ℕ) : List Char := natCharsAux (n + 1) n

/-- Decimal string of a natural number. -/
def natStr (n : ℕ) : String := ⟨natChars n⟩

/-- The id of the piece with generation index `i`, source "piece-" + i. -/
def mkPieceId (i : ℕ) : String := "piece-" ++ natStr i

/-! ## Data model (types.ts) -/

/-- A puzzle piece, source interface `PuzzlePiece` in types.ts.  The SVG
`path` string is presentation-only and not modelled (see header). -/
structure PuzzlePieceT where
  id : String
  polygon : List Point
  centroid : Point
  x : ℝ
  y : ℝ
  rotation : ℝ
  neighborIds : List String
  zIndex : ℕ

/-- A merged group, source interface `MergedGroup` in types.ts.  The `paths`
field is presentation-only (and is in fact never constructed by the store's
`performSnap`), so it is not modelled. -/
structure MergedGroupT where
  id : String
  pieceIds : List String
  polygons : List (List Point)
  centroid : Point
  x : ℝ
  y : ℝ
  rotation : ℝ
  zIndex : ℕ

/-- The store state, source interface `PuzzleState` in usePuzzleStore.ts. -/
structure PuzzleState where
  pieces : List PuzzlePieceT
  groups : List MergedGroupT
  selectedId : Option String
  imageLoaded : Bool
  completed : Bool
  nextZ : ℕ

/-- Source `initialState` in usePuzzleStore.ts. -/
def initialState : PuzzleState :=
  { pieces := [], groups := [], selectedId := none,
    imageLoaded := false, completed := false, nextZ := 1 }

/-! ## Grid tessellation generator (puzzleGenerator.ts) -/

/-- Column count: `Math.max(2, Math.round(Math.sqrt(count * imgWidth / imgHeight)))`.
Mathlib's `round` is `⌊x + 1/2⌋` (`round_eq`), which is exactly JS `Math.round`. -/
noncomputable def gridCols (iw ih : ℝ) (count : ℕ) : ℕ :=
  (max 2 (round (Real.sqrt (count * iw / ih)))).toNat

/-- Row count: `Math.max(2, Math.round(count / cols))`. -/
noncomputable def gridRows (count cols : ℕ) : ℕ :=
  (max 2 (round ((count : ℝ) / cols))).toNat

/-- hEdge[r][c]: +1 = tab protrudes downward on the edge between row r and
row r+1, chosen by `Math.random() > 0.5 ? 1 : -1`.  The random draw for
hEdge[r][c] is the (r*cols+c)-th draw of the stream. -/
noncomputable def hEdgeDir (rnd : ℕ → ℝ) (cols r c : ℕ) : ℤ :=
  if rnd (r * cols + c) > 0.5 then 1 else -1

/-- vEdge[r][c]: +1 = tab protrudes rightward on the edge between col c and
col c+1.  Its draw comes after all (rows-1)*cols hEdge draws. -/
noncomputable def vEdgeDir (rnd : ℕ → ℝ) (rows cols r c : ℕ) : ℤ :=
  if rnd ((rows - 1) * cols + r * (cols - 1) + c) > 0.5 then 1 else -1

/-- Source: `const topDir = r > 0 ? -hEdge[r - 1][c] : 0`. -/
noncomputable def topDir (rnd : ℕ → ℝ) (rows cols r c : ℕ) : ℤ :=
  if 0 < r then -hEdgeDir rnd cols (r - 1) c else 0

/-- Source: `const rightDir = c < cols - 1 ? vEdge[r][c] : 0`. -/
noncomputable def rightDir (rnd : ℕ → ℝ) (rows cols r c : ℕ) : ℤ :=
  if c < cols - 1 then vEdgeDir rnd rows cols r c else 0

/-- Source: `const bottomDir = r < rows - 1 ? hEdge[r][c] : 0`. -/
noncomputable def bottomDir (rnd : ℕ → ℝ) (rows cols r c : ℕ) : ℤ :=
  if r < rows - 1 then hEdgeDir rnd cols r c else 0

/-- Source: `const leftDir = c > 0 ? -vEdge[r][c - 1] : 0`. -/
noncomputable def leftDir (rnd : ℕ → ℝ) (rows cols r c : ℕ) : ℤ :=
  if 0 < c then -vEdgeDir rnd rows cols r (c - 1) else 0

/-- Grid neighbor ids of cell (r,c), source push order: up, down, left, right. -/
def gridNeighborIds (rows cols r c : ℕ) : List String :=
  (if 0 < r then [mkPieceId ((r - 1) * cols + c)] else [])
    ++ (if r < rows - 1 then [mkPieceId ((r + 1) * cols + c)] else [])
    ++ (if 0 < c then [mkPieceId (r * cols + (c - 1))] else [])
    ++ (if c < cols - 1 then [mkPieceId (r * cols + (c + 1))] else [])

/-- The piece built for grid cell (r,c).  The board position and rotation use
the random draws following the edge-table draws: piece (r,c) uses stream
indices base, base+1, base+2 in source call order.  `padding = 60`. -/
noncomputable def gridPiece (iw ih bw bh : ℝ) (rnd : ℕ → ℝ) (rows cols r c : ℕ) :
    PuzzlePieceT :=
  let cellW := iw / cols
  let cellH := ih / rows
  let tabSize := min cellW cellH * 0.3
  let x0 := c * cellW
  let y0 := r * cellH
  let x1 := x0 + cellW
  let y1 := y0 + cellH
  let base := (rows - 1) * cols + rows * (cols - 1) + 3 * (r * cols + c)
  { id := mkPieceId (r * cols + c)
    polygon := [(x0 - tabSize, y0 - tabSize), (x1 + tabSize, y0 - tabSize),
                (x1 + tabSize, y1 + tabSize), (x0 - tabSize, y1 + tabSize)]
    centroid := ((x0 + x1) / 2, (y0 + y1) / 2)
    x := 60 + rnd base * (bw - 2 * 60)
    y := 60 + rnd (base + 1) * (bh - 2 * 60)
    rotation := (⌊rnd (base + 2) * 24⌋ : ℤ) * 15
    neighborIds := gridNeighborIds rows cols r c
    zIndex := r * cols + c }

/-- Grid generator, source `generatePuzzlePieces` in puzzleGenerator.ts,
iterating rows outer, columns inner. -/
noncomputable def generatePuzzlePieces (iw ih : ℝ) (count : ℕ) (bw bh : ℝ)
    (rnd : ℕ → ℝ) : List PuzzlePieceT :=
  let cols := gridCols iw ih count
  let rows := gridRows count cols
  (List.range rows).flatMap fun r =>
    (List.range cols).map fun c => gridPiece iw ih bw bh rnd rows cols r c

/-! ## Organic (Voronoi) generator variant (appended to usePuzzleStore.ts)

The external d3-delaunay library provides `delaunay.neighbors(i)` and
`voronoi.cellPolygon(i)`; they are parameters `dn` and `cellPoly` here. -/

/-- Signed-area polygon centroid with degenerate fallback, source `centroid`
in the organic generator: cross-product accumulation, then if `|area| < 1e-10`
the arithmetic mean of the vertices, else the area-weighted centroid. -/
noncomputable def polyCentroid (poly : List Point) : Point :=
  let n := poly.length
  let pt := fun i => poly.getD (i % n) ((0 : ℝ), (0 : ℝ))
  let cross := fun i => (pt i).1 * (pt (i + 1)).2 - (pt (i + 1)).1 * (pt i).2
  let area := ((List.range n).map cross).sum / 2
  let cx := ((List.range n).map fun i => ((pt i).1 + (pt (i + 1)).1) * cross i).sum
  let cy := ((List.range n).map fun i => ((pt i).2 + (pt (i + 1)).2) * cross i).sum
  if |area| < 1e-10 then
    ((poly.map Prod.fst).sum / n, (poly.map Prod.snd).sum / n)
  else
    (cx / (6 * area), cy / (6 * area))

/-- Record `b` as a neighbor of `a` in a map of neighbor sets (JS `Set.add`:
membership-idempotent, insertion order kept). -/
def addNbr (m : ℕ → List ℕ) (a b : ℕ) : ℕ → List ℕ :=
  fun k => if k = a then (if b ∈ m a then m a else m a ++ [b]) else m k

/-- The symmetrised neighbor map, source loop in the organic generator:
for each i < count and each j in dn i, add j to set(i) and i to set(j). -/
def symNbrs (count : ℕ) (dn : ℕ → List ℕ) : ℕ → List ℕ :=
  (List.range count).foldl
    (fun m i => (dn i).foldl (fun m2 j => addNbr (addNbr m2 i j) j i) m)
    (fun _ => [])

/-- The piece built for Voronoi cell `i` (organic variant).  The cell polygon
has its duplicated closing vertex stripped (`cell.slice(0, -1)`).  The three
per-piece random draws are modelled as stream slots 3i, 3i+1, 3i+2 (each an
independent uniform value; cells skipped for a null polygon draw nothing). -/
noncomputable def organicPiece (count : ℕ) (dn : ℕ → List ℕ) (bw bh : ℝ)
    (rnd : ℕ → ℝ) (i : ℕ) (cell : List Point) : PuzzlePieceT :=
  let polygon := cell.dropLast
  { id := mkPieceId i
    polygon := polygon
    centroid := polyCentroid polygon
    x := 60 + rnd (3 * i) * (bw - 2 * 60)
    y := 60 + rnd (3 * i + 1) * (bh - 2 * 60)
    rotation := (⌊rnd (3 * i + 2) * 24⌋ : ℤ) * 15
    neighborIds := (symNbrs count dn i).map mkPieceId
    zIndex := i }

/-- Organic generator, source `generatePuzzlePieces` in the usePuzzleStore.ts
variant: one piece per index with a non-null Voronoi cell. -/
noncomputable def generateOrganicPieces (count : ℕ) (dn : ℕ → List ℕ)
    (cellPoly : ℕ → Option (List Point)) (bw bh : ℝ) (rnd : ℕ → ℝ) :
    List PuzzlePieceT :=
  (List.range count).filterMap fun i =>
    (cellPoly i).map (organicPiece count dn bw bh rnd i)

/-! ## Snap/merge algorithm (performSnap in usePuzzleStore.ts) -/

/-- Source `SNAP_DISTANCE = 20`. -/
def SNAP_DISTANCE : ℝ := 20

/-- Source `SNAP_ANGLE = 15`. -/
def SNAP_ANGLE : ℝ := 15

/-- Lookup in `pieceMap = new Map(pieces.map(p => [p.id, p]))`: a JS `Map`
built from a list keeps the last entry for a repeated key. -/
def mapGet (pieces : List PuzzlePieceT) (k : String) : Option PuzzlePieceT :=
  pieces.foldl (fun acc p => if p.id = k then some p else acc) none

/-- The view of an entity (piece or group) used by `performSnap`. -/
structure EntityView where
  entityId : String
  pieceIds : List String
  x : ℝ
  y : ℝ
  rotation : ℝ
  centroid : Point

/-- Resolution of the active entity: a group whose id matches, else a piece
from the piece map, else nothing (source lines 190-213). -/
def activeView (s : PuzzleState) (activeId : String) : Option EntityView :=
  match s.groups.find? (fun g => g.id = activeId) with
  | some g => some ⟨g.id, g.pieceIds, g.x, g.y, g.rotation, g.centroid⟩
  | none =>
    match mapGet s.pieces activeId with
    | some p => some ⟨p.id, [p.id], p.x, p.y, p.rotation, p.centroid⟩
    | none => none

/-- Source `entityOfPiece`: the first group whose `pieceIds` contains the
piece id, else the piece itself. -/
def entityOfPiece (s : PuzzleState) (pid : String) : Option EntityView :=
  match s.groups.find? (fun g => pid ∈ g.pieceIds) with
  | some g => some ⟨g.id, g.pieceIds, g.x, g.y, g.rotation, g.centroid⟩
  | none =>
    match mapGet s.pieces pid with
    | some p => some ⟨p.id, [p.id], p.x, p.y, p.rotation, p.centroid⟩
    | none => none

/-- Candidate neighbor piece ids (source lines 252-261): the union, in JS
`Set` insertion order, of the neighbor ids of every piece of the active
entity, excluding ids already inside the active entity. -/
def candidateIds (pieces : List PuzzlePieceT) (activeIds : List String) :
    List String :=
  activeIds.foldl
    (fun acc pid =>
      match mapGet pieces pid with
      | none => acc
      | some p =>
        p.neighborIds.foldl
          (fun acc2 nid =>
            if nid ∈ activeIds then acc2
            else if nid ∈ acc2 then acc2 else acc2 ++ [nid])
          acc)
    []

/-- The rotation-gate quantity (source lines 267-270):
`Math.abs(((active.rotation - neighbor.rotation + 180) % 360) - 180)`
with JS remainder semantics. -/
noncomputable def rotDiffOf (activeRot nbrRot : ℝ) : ℝ :=
  |jsRem (activeRot - nbrRot + 180) 360 - 180|

/-- Predicted board position of a candidate centroid (source lines 273-280):
scale the image-space centroid offset, rotate it by the active entity's
rotation (degrees to radians), add the active entity's board position. -/
noncomputable def expectedPos (active : EntityView) (nbrCentroid : Point)
    (scale : ℝ) : Point :=
  let imgDx := (nbrCentroid.1 - active.centroid.1) * scale
  let imgDy := (nbrCentroid.2 - active.centroid.2) * scale
  let rad := active.rotation * Real.pi / 180
  (active.x + imgDx * Real.cos rad - imgDy * Real.sin rad,
   active.y + imgDx * Real.sin rad + imgDy * Real.cos rad)

open Classical in
/-- One candidate check in the loop of `performSnap` (source lines 263-283):
skip when the candidate resolves to nothing or to the active entity itself,
when the rotation gate fails (`rotDiff > SNAP_ANGLE`), or when the position
gate fails (`d > SNAP_DISTANCE`); otherwise this candidate triggers a merge. -/
noncomputable def qualifies (s : PuzzleState) (active : EntityView) (scale : ℝ)
    (nid : String) : Option EntityView :=
  match entityOfPiece s nid with
  | none => none
  | some nbr =>
    if nbr.entityId = active.entityId then none
    else if rotDiffOf active.rotation nbr.rotation > SNAP_ANGLE then none
    else if dist (expectedPos active nbr.centroid scale) (nbr.x, nbr.y) >
        SNAP_DISTANCE then none
    else some nbr

/-- The view of a single piece as an entity, as built inline by the source's
active-entity resolution and by `entityOfPiece`. -/
def pieceView (p : PuzzlePieceT) : EntityView :=
  ⟨p.id, [p.id], p.x, p.y, p.rotation, p.centroid⟩

/-- The `newGroup` record built by the merge step (source lines 297-306): the
union of the piece ids, the per-member polygons carried forward, the
recomputed group centroid, the board position re-anchored to the active
entity's frame, the active entity's rotation and a fresh top z value.  The
non-null assertion `pieceMap.get(pid)!` is modelled with an empty-polygon
default (a missing id would throw in JS; it cannot occur in
generator-produced states). -/
noncomputable def mergedGroupOf (s : PuzzleState) (active nbr : EntityView)
    (scale : ℝ) (newId : String) : MergedGroupT :=
  let mergedPieceIds := active.pieceIds ++ nbr.pieceIds
  let mergedPolygons := mergedPieceIds.map fun pid =>
    ((mapGet s.pieces pid).map (fun p => p.polygon)).getD []
  let mergedCentroid := groupCentroid mergedPolygons
  let rad := active.rotation * Real.pi / 180
  let centroidDx := (mergedCentroid.1 - active.centroid.1) * scale
  let centroidDy := (mergedCentroid.2 - active.centroid.2) * scale
  { id := newId
    pieceIds := mergedPieceIds
    polygons := mergedPolygons
    centroid := mergedCentroid
    x := active.x + centroidDx * Real.cos rad - centroidDy * Real.sin rad
    y := active.y + centroidDx * Real.sin rad + centroidDy * Real.cos rad
    rotation := active.rotation
    zIndex := s.nextZ }

/-- The merge step (source lines 286-322): replace both prior entities by the
new group, select it, bump the z counter, and set `completed` iff the merged
id-list length equals the piece count. -/
noncomputable def mergeState (s : PuzzleState) (active nbr : EntityView)
    (scale : ℝ) (newId : String) : PuzzleState :=
  { s with
    groups := (s.groups.filter fun g =>
      g.id ≠ active.entityId ∧ g.id ≠ nbr.entityId)
        ++ [mergedGroupOf s active nbr scale newId]
    selectedId := some newId
    nextZ := s.nextZ + 1
    completed := (active.pieceIds ++ nbr.pieceIds).length = s.pieces.length }

/-- Fuel-indexed recursion of `performSnap`.  The source recurses after each
merge with the freshly formed group as the active entity; each chained merge
strictly enlarges the active membership set inside the fixed universe of ids
occurring in the state, so the chain length is bounded by `snapFuel` below
and the fuel never runs out when `performSnap` supplies it.  `gi` indexes the
fresh-group-id stream. -/
noncomputable def performSnapFuel (gid : ℕ → String) (scale : ℝ) :
    ℕ → ℕ → String → PuzzleState → Option PuzzleState
  | 0, _, _, _ => none
  | fuel + 1, gi, activeId, s =>
    match activeView s activeId with
    | none => none
    | some active =>
      match (candidateIds s.pieces active.pieceIds).findSome?
          (qualifies s active scale) with
      | none => none
      | some nbr =>
        let s' := mergeState s active nbr scale (gid gi)
        some ((performSnapFuel gid scale fuel (gi + 1) (gid gi) s').getD s')

/-- An upper bound on the possible merge-chain length from state `s`: the
total number of id occurrences in the state, plus one. -/
def snapFuel (s : PuzzleState) : ℕ :=
  s.pieces.length + (s.pieces.map fun p => p.neighborIds.length).sum
    + (s.groups.map fun g => g.pieceIds.length).sum + 1

/-- Source `performSnap(activeId, state, scale)`: returns the merged state
(after chaining) or null when no merge occurs. -/
noncomputable def performSnap (activeId : String) (s : PuzzleState)
    (scale : ℝ) (gid : ℕ → String) : Option PuzzleState :=
  performSnapFuel gid scale (snapFuel s) 0 activeId s

/-! ## The reducer (usePuzzleStore.ts lines 38-98) -/

/-- Store actions.  `trySnap` carries the fresh-group-id stream (see header). -/
inductive Action where
  | init (pieces : List PuzzlePieceT)
  | select (id : Option String)
  | move (id : String) (dx dy : ℝ)
  | rotate (id : String) (angle : ℝ)
  | trySnap (id : String) (scale : ℝ) (gid : ℕ → String)

/-- The reducer.  In the SELECT case the source guard `if (!action.id)` is
also taken by the empty string (a falsy value in JS). -/
noncomputable def reducer (s : PuzzleState) (a : Action) : PuzzleState :=
  match a with
  | .init ps =>
    { initialState with pieces := ps, imageLoaded := true, nextZ := ps.length + 1 }
  | .select none => { s with selectedId := none }
  | .select (some id) =>
    if id = "" then { s with selectedId := none }
    else
      { s with
        selectedId := some id
        nextZ := s.nextZ + 1
        pieces := s.pieces.map fun p =>
          if p.id = id then { p with zIndex := s.nextZ } else p
        groups := s.groups.map fun g =>
          if g.id = id then { g with zIndex := s.nextZ } else g }
  | .move id dx dy =>
    { s with
      pieces := s.pieces.map fun p =>
        if p.id = id then { p with x := p.x + dx, y := p.y + dy } else p
      groups := s.groups.map fun g =>
        if g.id = id then { g with x := g.x + dx, y := g.y + dy } else g }
  | .rotate id angle =>
    { s with
      pieces := s.pieces.map fun p =>
        if p.id = id then { p with rotation := angle } else p
      groups := s.groups.map fun g =>
        if g.id = id then { g with rotation := angle } else g }
  | .trySnap id scale gid => (performSnap id s scale gid).getD s

/-- The image-to-board scale computed by `initialize`:
`min(boardWidth * 0.6 / naturalWidth, boardHeight * 0.6 / naturalHeight)`. -/
noncomputable def initScale (iw ih bw bh : ℝ) : ℝ :=
  min (bw * 0.6 / iw) (bh * 0.6 / ih)

/-- Board states reachable through the store: an `initialize` (which runs the
grid generator on positive dimensions with uniform random draws) followed by
any sequence of select / move / rotate / attemptSnap operations.  The snap
scale is the one captured by `initialize` (`scaleRef`), and fresh group ids
always start with "group-" as in the source template literal. -/
inductive Reachable : PuzzleState → ℝ → Prop where
  | init (iw ih : ℝ) (count : ℕ) (bw bh : ℝ) (rnd : ℕ → ℝ)
      (hiw : 0 < iw) (hih : 0 < ih) (hbw : 0 < bw) (hbh : 0 < bh)
      (hrnd : ∀ n, 0 ≤ rnd n ∧ rnd n < 1) :
      Reachable
        (reducer initialState (.init (generatePuzzlePieces iw ih count bw bh rnd)))
        (initScale iw ih bw bh)
  | select (s : PuzzleState) (sc : ℝ) (id : Option String) :
      Reachable s sc → Reachable (reducer s (.select id)) sc
  | move (s : PuzzleState) (sc : ℝ) (id : String) (dx dy : ℝ) :
      Reachable s sc → Reachable (reducer s (.move id dx dy)) sc
  | rotate (s : PuzzleState) (sc : ℝ) (id : String) (angle : ℝ) :
      Reachable s sc → Reachable (reducer s (.rotate id angle)) sc
  | snap (s : PuzzleState) (sc : ℝ) (id : String) (gid : ℕ → String)
      (hgid : ∀ n, ∃ suffix, gid n = "group-" ++ suffix) :
      Reachable s sc → Reachable (reducer s (.trySnap id sc gid)) sc

/-! ## Definitions written from the specification text

These two definitions follow the spec's words (not the code) and are compared
against the code's computations in the claim theorems. -/

/-- Modelled from the spec: the signed angular difference `x`, normalized into
the interval (−180, 180] — the unique representative of `x` modulo 360 lying
in that interval. -/
noncomputable def specAngleNorm (x : ℝ) : ℝ :=
  x - 360 * ⌈x / 360 - 1 / 2⌉

/-- Modelled from the spec: the predicted board position of a candidate — the
active entity's board position plus the image-space centroid offset (candidate
centroid minus active centroid) multiplied by the scale and rotated by the
active entity's rotation. -/
noncomputable def specPredictedPos (activePos : Point) (activeRot : ℝ)
    (activeCentroid candCentroid : Point) (scale : ℝ) : Point :=
  let offX := (candCentroid.1 - activeCentroid.1) * scale
  let offY := (candCentroid.2 - activeCentroid.2) * scale
  let rad := activeRot * Real.pi / 180
  (activePos.1 + offX * Real.cos rad - offY * Real.sin rad,
   activePos.2 + offX * Real.sin rad + offY * Real.cos rad)

/-! ## Concrete fixtures

A 2×2 grid-generator board (image 100×100, 4 pieces, board 1000×1000, all
random draws 0, so `initScale = 6`), plus the states produced by the action
sequence rotate piece-2 to 90°, rotate piece-3 to 90°, move piece-1 by
(300, 0), then three attemptSnap calls. -/

/-- The all-zeros random stream. -/
def scnRnd : ℕ → ℝ := fun _ => 0

/-- Grid cell (0,0) as generated (position (60,60), rotation 0). -/
noncomputable def scnP0 : PuzzlePieceT :=
  { id := "piece-0"
    polygon := [((-15 : ℝ), (-15 : ℝ)), (65, -15), (65, 65), (-15, 65)]
    centroid := (25, 25), x := 60, y := 60, rotation := 0
    neighborIds := ["piece-2", "piece-1"], zIndex := 0 }

/-- Grid cell (0,1) as generated. -/
noncomputable def scnP1 : PuzzlePieceT :=
  { id := "piece-1"
    polygon := [((35 : ℝ), (-15 : ℝ)), (115, -15), (115, 65), (35, 65)]
    centroid := (75, 25), x := 60, y := 60, rotation := 0
    neighborIds := ["piece-3", "piece-0"], zIndex := 1 }

/-- Grid cell (1,0) as generated. -/
noncomputable def scnP2 : PuzzlePieceT :=
  { id := "piece-2"
    polygon := [((-15 : ℝ), (35 : ℝ)), (65, 35), (65, 115), (-15, 115)]
    centroid := (25, 75), x := 60, y := 60, rotation := 0
    neighborIds := ["piece-0", "piece-3"], zIndex := 2 }

/-- Grid cell (1,1) as generated. -/
noncomputable def scnP3 : PuzzlePieceT :=
  { id := "piece-3"
    polygon := [((35 : ℝ), (35 : ℝ)), (115, 35), (115, 115), (35, 115)]
    centroid := (75, 75), x := 60, y := 60, rotation := 0
    neighborIds := ["piece-1", "piece-2"], zIndex := 3 }

/-- piece-1 after `move("piece-1", 300, 0)`. -/
noncomputable def scnP1m : PuzzlePieceT := { scnP1 with x := 360 }

/-- piece-2 after `rotate("piece-2", 90)`. -/
noncomputable def scnP2r : PuzzlePieceT := { scnP2 with rotation := 90 }

/-- piece-3 after `rotate("piece-3", 90)`. -/
noncomputable def scnP3r : PuzzlePieceT := { scnP3 with rotation := 90 }

/-- The board after initialize, the two rotates, and the move. -/
noncomputable def scnStateA : PuzzleState :=
  { pieces := [scnP0, scnP1m, scnP2r, scnP3r], groups := [], selectedId := none,
    imageLoaded := true, completed := false, nextZ := 5 }

/-- The group formed by the first (legitimate) snap of piece-0 with piece-1. -/
noncomputable def scnG1 : MergedGroupT :=
  { id := "group-a", pieceIds := ["piece-0", "piece-1"]
    polygons := [scnP0.polygon, scnP1.polygon]
    centroid := (50, 25), x := 210, y := 60, rotation := 0, zIndex := 5 }

/-- The board after the first attemptSnap("piece-0"). -/
noncomputable def scnState1 : PuzzleState :=
  { scnStateA with groups := [scnG1], selectedId := some "group-a", nextZ := 6 }

/-- The group formed by the second attemptSnap("piece-0") — the stale piece-0
id is merged again with the group that already absorbed it, duplicating
"piece-0". -/
noncomputable def scnG2 : MergedGroupT :=
  { id := "group-b", pieceIds := ["piece-0", "piece-0", "piece-1"]
    polygons := [scnP0.polygon, scnP0.polygon, scnP1.polygon]
    centroid := (125 / 3, 25), x := 160, y := 60, rotation := 0, zIndex := 6 }

/-- The board after the second attemptSnap("piece-0"). -/
noncomputable def scnState2 : PuzzleState :=
  { scnStateA with groups := [scnG2], selectedId := some "group-b", nextZ := 7 }

/-- The group formed by attemptSnap("piece-1") on `scnState2`: its id-list
length reaches 4 = number of pieces, although it only contains piece-0 and
piece-1. -/
noncomputable def scnG3 : MergedGroupT :=
  { id := "group-c", pieceIds := ["piece-1", "piece-0", "piece-0", "piece-1"]
    polygons := [scnP1.polygon, scnP0.polygon, scnP0.polygon, scnP1.polygon]
    centroid := (50, 25), x := 210, y := 60, rotation := 0, zIndex := 7 }

/-- The board after the third snap: `completed` is set although pieces 2 and 3
were never merged. -/
noncomputable def scnState3 : PuzzleState :=
  { scnStateA with
    groups := [scnG3], selectedId := some "group-c", nextZ := 8,
    completed := true }

/-- Fixture for the rotation-gate claim: a piece at rotation 0 whose true
neighbor sits at rotation 350 (true angular difference 10°), perfectly placed. -/
noncomputable def rotGateState : PuzzleState :=
  { pieces :=
      [{ id := "piece-0", polygon := [((0 : ℝ), (0 : ℝ))], centroid := (0, 0),
         x := 0, y := 0, rotation := 0, neighborIds := ["piece-1"], zIndex := 0 },
       { id := "piece-1", polygon := [((10 : ℝ), (0 : ℝ))], centroid := (10, 0),
         x := 10, y := 0, rotation := 350, neighborIds := ["piece-0"], zIndex := 1 }]
    groups := [], selectedId := none, imageLoaded := true, completed := false,
    nextZ := 3 }

/-- Fixture for the position gate: two aligned neighbors, candidate exactly at
the predicted position (distance 0), scale 1. -/
noncomputable def posGateStateNear : PuzzleState :=
  { pieces :=
      [{ id := "piece-0", polygon := [((0 : ℝ), (0 : ℝ))], centroid := (0, 0),
         x := 0, y := 0, rotation := 0, neighborIds := ["piece-1"], zIndex := 0 },
       { id := "piece-1", polygon := [((10 : ℝ), (0 : ℝ))], centroid := (10, 0),
         x := 10, y := 0, rotation := 0, neighborIds := ["piece-0"], zIndex := 1 }]
    groups := [], selectedId := none, imageLoaded := true, completed := false,
    nextZ := 3 }

/-- Same fixture with the candidate 21 board units away from its predicted
position. -/
noncomputable def posGateStateFar : PuzzleState :=
  { pieces :=
      [{ id := "piece-0", polygon := [((0 : ℝ), (0 : ℝ))], centroid := (0, 0),
         x := 0, y := 0, rotation := 0, neighborIds := ["piece-1"], zIndex := 0 },
       { id := "piece-1", polygon := [((10 : ℝ), (0 : ℝ))], centroid := (10, 0),
         x := 31, y := 0, rotation := 0, neighborIds := ["piece-0"], zIndex := 1 }]
    groups := [], selectedId := none, imageLoaded := true, completed := false,
    nextZ := 3 }

/-- Witness pieces for the chaining claim: three mutually-neighboring pieces,
all at rotation 0, each placed exactly at its predicted offset. -/
noncomputable def chainA : PuzzlePieceT :=
  { id := "piece-0", polygon := [((0 : ℝ), (0 : ℝ))], centroid := (0, 0),
    x := 0, y := 0, rotation := 0, neighborIds := ["piece-1", "piece-2"],
    zIndex := 0 }

/-- Second chaining witness piece. -/
noncomputable def chainB : PuzzlePieceT :=
  { id := "piece-1", polygon := [((10 : ℝ), (0 : ℝ))], centroid := (10, 0),
    x := 10, y := 0, rotation := 0, neighborIds := ["piece-0", "piece-2"],
    zIndex := 1 }

/-- Third chaining witness piece. -/
noncomputable def chainC : PuzzlePieceT :=
  { id := "piece-2", polygon := [((20 : ℝ), (0 : ℝ))], centroid := (20, 0),
    x := 20, y := 0, rotation := 0, neighborIds := ["piece-0", "piece-1"],
    zIndex := 2 }

/-- Board holding the three chaining witness pieces. -/
noncomputable def chainState : PuzzleState :=
  { pieces := [chainA, chainB, chainC], groups := [], selectedId := none,
    imageLoaded := true, completed := false, nextZ := 4 }

/-- Fixture for the no-match claim witness: the lone candidate fails the
rotation gate (90° versus 0°). -/
noncomputable def noMatchState : PuzzleState :=
  { pieces :=
      [{ id := "piece-0", polygon := [((0 : ℝ), (0 : ℝ))], centroid := (0, 0),
         x := 0, y := 0, rotation := 0, neighborIds := ["piece-1"], zIndex := 0 },
       { id := "piece-1", polygon := [((10 : ℝ), (0 : ℝ))], centroid := (10, 0),
         x := 10, y := 0, rotation := 90, neighborIds := ["piece-0"], zIndex := 1 }]
    groups := [], selectedId := none, imageLoaded := true, completed := false,
    nextZ := 3 }

/-- Delaunay neighbor function for the organic-generator witness: two cells,
each the other's neighbor. -/
def orgDn : ℕ → List ℕ := fun i => if i = 0 then [1] else if i = 1 then [0] else []

/-- Cell polygons for the organic-generator witness. -/
def orgCell : ℕ → Option (List Point) :=
  fun _ => some [((0 : ℝ), (0 : ℝ)), (1, 0), (0, 1), (0, 0)]

/-! ## Basic lemmas about the JS remainder -/

theorem jsRem_of_nonneg_lt {a n : ℝ} (h0 : 0 ≤ a) (hn : a < n) : jsRem a n = a := by
  have hnpos : 0 < n := lt_of_le_of_lt h0 hn
  have ht : realTrunc (a / n) = 0 := by
    rw [realTrunc, if_pos (div_nonneg h0 hnpos.le), Int.floor_eq_zero_iff]
    exact ⟨div_nonneg h0 hnpos.le, (div_lt_one hnpos).2 hn⟩
  simp [jsRem, ht]

theorem jsRem_of_neg {a n : ℝ} (hn : -n < a) (h0 : a < 0) : jsRem a n = a := by
  have hnpos : 0 < n := by linarith
  have ht : realTrunc (a / n) = 0 := by
    rw [realTrunc, if_neg (by push_neg; exact div_neg_of_neg_of_pos h0 hnpos)]
    have : ⌊-(a / n)⌋ = 0 := by
      rw [Int.floor_eq_zero_iff]
      refine ⟨le_of_lt (neg_pos.mpr (div_neg_of_neg_of_pos h0 hnpos)), ?_⟩
      rw [← neg_div, div_lt_one hnpos]
      linarith
    simp [this]
  simp [jsRem, ht]

/-- The spec normalization lands in (−180, 180] and differs from its input by
an integer multiple of 360; this characterises it as the normalization the
spec describes. -/
theorem specAngleNorm_spec (x : ℝ) :
    -180 < specAngleNorm x ∧ specAngleNorm x ≤ 180 ∧
      ∃ k : ℤ, x - specAngleNorm x = 360 * k := by
  have h1 : (x / 360 - 1 / 2 : ℝ) ≤ ⌈x / 360 - 1 / 2⌉ := Int.le_ceil _
  have h2 : (⌈x / 360 - 1 / 2⌉ : ℝ) < x / 360 - 1 / 2 + 1 := Int.ceil_lt_add_one _
  refine ⟨?_, ?_, ⟨⌈x / 360 - 1 / 2⌉, by rw [specAngleNorm]; ring⟩⟩
  · rw [specAngleNorm]; nlinarith
  · rw [specAngleNorm]; nlinarith

/-! ## Decimal rendering is injective -/

theorem natCharsAux_fuel (f₁ : ℕ) : ∀ f₂ n, n < f₁ → n < f₂ →
    natCharsAux f₁ n = natCharsAux f₂ n := by
  induction f₁ with
  | zero => omega
  | succ f ih =>
    intro f₂ n h₁ h₂
    cases f₂ with
    | zero => omega
    | succ f' =>
      simp only [natCharsAux]
      by_cases h : n < 10
      · simp [h]
      · have hdiv : n / 10 < n := Nat.div_lt_self (by omega) (by omega)
        simp only [h, if_false]
        rw [ih f' (n / 10) (by omega) (by omega)]

theorem natChars_eq (n : ℕ) : natChars n =
    if n < 10 then [Nat.digitChar n]
    else natChars (n / 10) ++ [Nat.digitChar (n % 10)] := by
  by_cases h : n < 10
  · simp only [if_pos h, natChars]
    simp [natCharsAux, h]
  · have hdiv : n / 10 < n := Nat.div_lt_self (by omega) (by omega)
    rw [if_neg h]
    unfold natChars
    have hstep : natCharsAux (n + 1) n
        = natCharsAux n (n / 10) ++ [Nat.digitChar (n % 10)] := by
      simp only [natCharsAux]
      rw [if_neg h]
    rw [hstep, natCharsAux_fuel n (n / 10 + 1) (n / 10) (by omega) (by omega)]

theorem natChars_ne_nil (n : ℕ) : natChars n ≠ [] := by
  rw [natChars_eq]; split <;> simp

theorem digitChar_injOn : ∀ a, a < 10 → ∀ b, b < 10 →
    Nat.digitChar a = Nat.digitChar b → a = b := by decide

theorem natChars_inj (n : ℕ) : ∀ m, natChars n = natChars m → n = m := by
  induction n using Nat.strong_induction_on with
  | _ n ih =>
    intro m h
    rw [natChars_eq n, natChars_eq m] at h
    by_cases hn : n < 10 <;> by_cases hm : m < 10
    · simp only [hn, hm, if_true, List.cons.injEq, and_true] at h
      exact digitChar_injOn n hn m hm h
    · simp only [hn, hm, if_true, if_false] at h
      obtain ⟨c, l, hcl⟩ := List.exists_cons_of_ne_nil (natChars_ne_nil (m / 10))
      rw [hcl] at h
      simp at h
    · simp only [hn, hm, if_true, if_false] at h
      obtain ⟨c, l, hcl⟩ := List.exists_cons_of_ne_nil (natChars_ne_nil (n / 10))
      rw [hcl] at h
      simp at h
    · simp only [hn, hm, if_false] at h
      obtain ⟨h1, h2⟩ := List.append_inj' h (by simp)
      have hd : n % 10 = m % 10 :=
        digitChar_injOn _ (Nat.mod_lt _ (by omega)) _ (Nat.mod_lt _ (by omega))
          (by simpa using h2)
      have hq : n / 10 = m / 10 :=
        ih (n / 10) (Nat.div_lt_self (by omega) (by omega)) _ h1
      omega

theorem mkPieceId_inj {i j : ℕ} (h : mkPieceId i = mkPieceId j) : i = j := by
  have hdata := congrArg String.data h
  simp only [mkPieceId, String.data_append, natStr] at hdata
  exact natChars_inj i j (List.append_cancel_left hdata)

@[simp] theorem mkPieceId_eq_iff {i j : ℕ} : mkPieceId i = mkPieceId j ↔ i = j :=
  ⟨mkPieceId_inj, fun h => h ▸ rfl⟩

/-! ## Step lemmas for the snap recursion -/

theorem performSnapFuel_no_merge (gid : ℕ → String) (sc : ℝ) (fuel gi : ℕ)
    (id : String) (s : PuzzleState)
    (h : ∀ active, activeView s id = some active →
      (candidateIds s.pieces active.pieceIds).findSome? (qualifies s active sc)
        = none) :
    performSnapFuel gid sc fuel gi id s = none := by
  cases fuel with
  | zero => rfl
  | succ f =>
    rw [performSnapFuel]
    cases ha : activeView s id with
    | none => rfl
    | some active =>
      dsimp only
      rw [h active ha]

theorem performSnapFuel_merge (gid : ℕ → String) (sc : ℝ) (fuel gi : ℕ)
    (id : String) (s : PuzzleState) (active nbr : EntityView)
    (hfuel : fuel ≠ 0)
    (ha : activeView s id = some active)
    (hf : (candidateIds s.pieces active.pieceIds).findSome? (qualifies s active sc)
      = some nbr) :
    performSnapFuel gid sc fuel gi id s =
      some ((performSnapFuel gid sc (fuel - 1) (gi + 1) (gid gi)
        (mergeState s active nbr sc (gid gi))).getD
          (mergeState s active nbr sc (gid gi))) := by
  cases fuel with
  | zero => exact absurd rfl hfuel
  | succ f =>
    rw [performSnapFuel, ha]
    dsimp only
    rw [hf]
    simp

/-! ## Rotation-gate evaluations -/

theorem rotDiff_0_350 : rotDiffOf 0 350 = 350 := by
  have h : (0 : ℝ) - 350 + 180 = -170 := by norm_num
  rw [rotDiffOf, h, jsRem_of_neg (by norm_num) (by norm_num)]
  norm_num

theorem rotDiff_0_90 : rotDiffOf 0 90 = 90 := by
  have h : (0 : ℝ) - 90 + 180 = 90 := by norm_num
  rw [rotDiffOf, h, jsRem_of_nonneg_lt (by norm_num) (by norm_num)]
  norm_num

theorem rotDiff_0_0 : rotDiffOf 0 0 = 0 := by
  have h : (0 : ℝ) - 0 + 180 = 180 := by norm_num
  rw [rotDiffOf, h, jsRem_of_nonneg_lt (by norm_num) (by norm_num)]
  norm_num

theorem rotGate_snap_none :
    performSnap "piece-0" rotGateState 1 (fun _ => "group-x") = none := by
  unfold performSnap
  apply performSnapFuel_no_merge
  intro active ha
  simp +decide only [rotGateState, activeView, mapGet, List.foldl, List.find?,
    if_true, if_false, ite_true, ite_false, Option.some.injEq] at ha
  subst ha
  norm_num [candidateIds, mapGet, qualifies, entityOfPiece, rotGateState,
    List.foldl, List.find?, List.findSome?, rotDiff_0_350, SNAP_ANGLE]

theorem ceil_neg350_div : (⌈(-350 : ℝ) / 360 - 1 / 2⌉ : ℤ) = -1 := by
  rw [Int.ceil_eq_iff]
  constructor <;> norm_num

theorem specAngleNorm_neg350 : specAngleNorm (0 - 350) = 10 := by
  have h : ((0 : ℝ) - 350) = -350 := by norm_num
  rw [h, specAngleNorm, ceil_neg350_div]
  norm_num

/-- C1: the claim says the rotation gate rejects a candidate iff the signed
angular difference of active and candidate rotation, normalized into
(−180,180], exceeds 15° in absolute value, regardless of side.  The code's
`((a - b + 180) % 360) - 180` uses the JS remainder, which returns a negative
value when `a - b + 180 < 0`: for active rotation 0° and candidate rotation
350° (true difference 10° ≤ 15°) the code computes a rotation difference of
350 and rejects, so a perfectly aligned pair of true neighbors fails to
merge.  The spec-described normalization `specAngleNorm` yields 10 there.
This contradicts the spec's stated gate, so the code, not the claim, is in
error (code bug). -/
theorem C1_rotation_gate :
    rotDiffOf 0 350 = 350 ∧ rotDiffOf 0 350 > SNAP_ANGLE ∧
    specAngleNorm (0 - 350) = 10 ∧ |specAngleNorm (0 - 350)| ≤ SNAP_ANGLE ∧
    performSnap "piece-0" rotGateState 1 (fun _ => "group-x") = none := by
  refine ⟨rotDiff_0_350, ?_, specAngleNorm_neg350, ?_, rotGate_snap_none⟩
  · rw [rotDiff_0_350, SNAP_ANGLE]; norm_num
  · rw [specAngleNorm_neg350, SNAP_ANGLE]; norm_num

/-! ## Position-gate evaluations -/

theorem sqrt_441 : Real.sqrt 441 = 21 := by
  rw [show (441 : ℝ) = 21 ^ 2 by norm_num, Real.sqrt_sq (by norm_num : (0 : ℝ) ≤ 21)]

theorem posGateFar_snap_none :
    performSnap "piece-0" posGateStateFar 1 (fun _ => "group-x") = none := by
  unfold performSnap
  apply performSnapFuel_no_merge
  intro active ha
  simp +decide only [posGateStateFar, activeView, mapGet, List.foldl, List.find?,
    if_true, if_false, ite_true, ite_false, Option.some.injEq] at ha
  subst ha
  norm_num [candidateIds, mapGet, qualifies, entityOfPiece, posGateStateFar,
    List.foldl, List.find?, List.findSome?, rotDiff_0_0, SNAP_ANGLE,
    SNAP_DISTANCE, expectedPos, dist, Real.cos_zero, Real.sin_zero, sqrt_441]

theorem posGateNear_snap_merge :
    (performSnap "piece-0" posGateStateNear 1 (fun _ => "group-x")).map
      (fun t => t.groups.map fun g => g.pieceIds) = some [["piece-0", "piece-1"]] := by
  have hview : activeView posGateStateNear "piece-0" =
      some ⟨"piece-0", ["piece-0"], 0, 0, 0, (0, 0)⟩ := by
    simp +decide [posGateStateNear, activeView, mapGet, List.foldl, List.find?]
  have hfind : (candidateIds posGateStateNear.pieces ["piece-0"]).findSome?
      (qualifies posGateStateNear ⟨"piece-0", ["piece-0"], 0, 0, 0, (0, 0)⟩ 1)
      = some ⟨"piece-1", ["piece-1"], 10, 0, 0, (10, 0)⟩ := by
    norm_num +decide [candidateIds, mapGet, qualifies, entityOfPiece,
      posGateStateNear, List.foldl, List.find?, List.findSome?, rotDiff_0_0,
      SNAP_ANGLE, SNAP_DISTANCE, expectedPos, dist, Real.cos_zero, Real.sin_zero]
  rw [performSnap, performSnapFuel_merge _ _ _ _ _ _ _ _ (by norm_num [snapFuel])
    hview hfind]
  rw [performSnapFuel_no_merge]
  · simp +decide [mergeState, mergedGroupOf, posGateStateNear, List.filter]
  · intro active' ha'
    simp +decide [mergeState, mergedGroupOf, posGateStateNear, activeView, mapGet,
      List.foldl, List.find?, List.filter, List.append] at ha'
    subst ha'
    simp +decide [candidateIds, mapGet, mergeState, mergedGroupOf, posGateStateNear, List.foldl]

/-- C2: for a candidate that passes the rotation gate, the predicted position
is exactly the spec's formula (active position plus the scaled centroid offset
rotated by the active rotation), and the candidate is rejected iff the
Euclidean distance from this prediction to the candidate's actual position
exceeds 20 board units; concretely, an aligned true neighbor at distance 0
merges and a perturbation to distance 21 prevents the merge. -/
theorem C2_position_gate :
    (∀ (active : EntityView) (c : Point) (scale : ℝ),
      expectedPos active c scale =
        specPredictedPos (active.x, active.y) active.rotation active.centroid c
          scale)
    ∧ (∀ (s : PuzzleState) (active nbr : EntityView) (scale : ℝ) (nid : String),
      entityOfPiece s nid = some nbr →
      nbr.entityId ≠ active.entityId →
      rotDiffOf active.rotation nbr.rotation ≤ SNAP_ANGLE →
      (qualifies s active scale nid = none ↔
        dist (specPredictedPos (active.x, active.y) active.rotation
          active.centroid nbr.centroid scale) (nbr.x, nbr.y) > SNAP_DISTANCE))
    ∧ (performSnap "piece-0" posGateStateNear 1 (fun _ => "group-x")).map
        (fun t => t.groups.map fun g => g.pieceIds) = some [["piece-0", "piece-1"]]
    ∧ performSnap "piece-0" posGateStateFar 1 (fun _ => "group-x") = none := by
  refine ⟨fun _ _ _ => rfl, ?_, posGateNear_snap_merge, posGateFar_snap_none⟩
  intro s active nbr scale nid hent hne hrot
  rw [qualifies, hent]
  dsimp only
  rw [if_neg hne, if_neg (not_lt.mpr hrot)]
  by_cases hd : dist (expectedPos active nbr.centroid scale) (nbr.x, nbr.y) >
      SNAP_DISTANCE
  · rw [if_pos hd]
    simpa using hd
  · rw [if_neg hd]
    simp only [Option.some_ne_none, false_iff]
    exact hd

theorem C2_position_gate_witness :
    entityOfPiece posGateStateFar "piece-1" =
        some ⟨"piece-1", ["piece-1"], 31, 0, 0, (10, 0)⟩
    ∧ ("piece-1" : String) ≠ "piece-0"
    ∧ rotDiffOf 0 0 ≤ SNAP_ANGLE
    ∧ (qualifies posGateStateFar ⟨"piece-0", ["piece-0"], 0, 0, 0, (0, 0)⟩ 1
          "piece-1" = none ↔
        dist (specPredictedPos (0, 0) 0 (0, 0) (10, 0) 1) (31, 0) >
          SNAP_DISTANCE) := by
  have he : entityOfPiece posGateStateFar "piece-1" =
      some ⟨"piece-1", ["piece-1"], 31, 0, 0, (10, 0)⟩ := by
    simp +decide [entityOfPiece, posGateStateFar, mapGet, List.foldl, List.find?]
  have hne : ("piece-1" : String) ≠ "piece-0" := by decide
  have hrot : rotDiffOf 0 0 ≤ SNAP_ANGLE := by
    rw [rotDiff_0_0, SNAP_ANGLE]; norm_num
  exact ⟨he, hne, hrot,
    C2_position_gate.2.1 posGateStateFar ⟨"piece-0", ["piece-0"], 0, 0, 0, (0, 0)⟩
      ⟨"piece-1", ["piece-1"], 31, 0, 0, (10, 0)⟩ 1 "piece-1" he hne hrot⟩

/-! ## No-op and frame lemmas -/

theorem map_id_of {α : Type} (l : List α) (f : α → α) (h : ∀ a ∈ l, f a = a) :
    l.map f = l := by
  induction l with
  | nil => rfl
  | cons a t ih =>
    rw [List.map_cons, h a (List.mem_cons_self a t),
      ih fun b hb => h b (List.mem_cons_of_mem _ hb)]

theorem mapGet_aux (l : List PuzzlePieceT) (k : String) (a : Option PuzzlePieceT)
    (h : ∀ p ∈ l, p.id ≠ k) :
    l.foldl (fun acc p => if p.id = k then some p else acc) a = a := by
  induction l generalizing a with
  | nil => rfl
  | cons p t ih =>
    rw [List.foldl_cons, if_neg (h p (List.mem_cons_self p t))]
    exact ih a fun q hq => h q (List.mem_cons_of_mem _ hq)

theorem mapGet_eq_none {l : List PuzzlePieceT} {k : String}
    (h : ∀ p ∈ l, p.id ≠ k) : mapGet l k = none :=
  mapGet_aux l k none h

theorem activeView_eq_none {s : PuzzleState} {id : String}
    (hg : ∀ g ∈ s.groups, g.id ≠ id) (hp : ∀ p ∈ s.pieces, p.id ≠ id) :
    activeView s id = none := by
  have hf : s.groups.find? (fun g => g.id = id) = none := by
    rw [List.find?_eq_none]
    intro g hgm
    simpa using hg g hgm
  rw [activeView, hf, mapGet_eq_none hp]

theorem mergeState_pieces (s : PuzzleState) (a n : EntityView) (sc : ℝ)
    (nid : String) : (mergeState s a n sc nid).pieces = s.pieces := rfl

theorem mergeState_imageLoaded (s : PuzzleState) (a n : EntityView) (sc : ℝ)
    (nid : String) : (mergeState s a n sc nid).imageLoaded = s.imageLoaded := rfl

theorem performSnapFuel_frame : ∀ (fuel : ℕ) (gid : ℕ → String) (sc : ℝ)
    (gi : ℕ) (id : String) (s r : PuzzleState),
    performSnapFuel gid sc fuel gi id s = some r →
    r.pieces = s.pieces ∧ r.imageLoaded = s.imageLoaded := by
  intro fuel
  induction fuel with
  | zero => intro gid sc gi id s r h; simp [performSnapFuel] at h
  | succ f ih =>
    intro gid sc gi id s r h
    rw [performSnapFuel] at h
    cases ha : activeView s id with
    | none => rw [ha] at h; simp at h
    | some active =>
      rw [ha] at h
      dsimp only at h
      cases hf : (candidateIds s.pieces active.pieceIds).findSome?
          (qualifies s active sc) with
      | none => rw [hf] at h; simp at h
      | some nbr =>
        rw [hf] at h
        simp only [Option.some.injEq] at h
        cases hrec : performSnapFuel gid sc f (gi + 1) (gid gi)
            (mergeState s active nbr sc (gid gi)) with
        | none =>
          rw [hrec] at h
          simp only [Option.getD_none] at h
          rw [← h]
          exact ⟨mergeState_pieces .., mergeState_imageLoaded ..⟩
        | some r' =>
          rw [hrec] at h
          simp only [Option.getD_some] at h
          obtain ⟨hp, hl⟩ := ih gid sc (gi + 1) (gid gi) _ r' hrec
          rw [← h]
          rw [mergeState_pieces] at hp
          rw [mergeState_imageLoaded] at hl
          exact ⟨hp, hl⟩

/-- C10: attemptSnap never modifies the pieces array (so every individual
piece record is unchanged) and never touches `imageLoaded`; only the groups
list, the selection, the z-order counter and the completed flag can change,
whether or not a merge occurs. -/
theorem C10_snap_frame :
    ∀ (s : PuzzleState) (id : String) (scale : ℝ) (gid : ℕ → String),
      (reducer s (.trySnap id scale gid)).pieces = s.pieces
      ∧ (reducer s (.trySnap id scale gid)).imageLoaded = s.imageLoaded := by
  intro s id scale gid
  simp only [reducer]
  cases h : performSnap id s scale gid with
  | none => simp
  | some r =>
    simp only [Option.getD_some]
    exact performSnapFuel_frame (snapFuel s) gid scale 0 id s r h

/-- C7: when the active id resolves to an entity but no candidate passes both
gates, attemptSnap leaves the state unchanged (the very same state value). -/
theorem C7_no_match_unchanged :
    ∀ (s : PuzzleState) (id : String) (scale : ℝ) (gid : ℕ → String)
      (active : EntityView),
      activeView s id = some active →
      (∀ nid ∈ candidateIds s.pieces active.pieceIds,
        qualifies s active scale nid = none) →
      reducer s (.trySnap id scale gid) = s := by
  intro s id scale gid active ha hnone
  have hns : performSnap id s scale gid = none := by
    unfold performSnap
    apply performSnapFuel_no_merge
    intro active' ha'
    rw [ha, Option.some.injEq] at ha'
    subst ha'
    rw [List.findSome?_eq_none_iff]
    exact hnone
  simp [reducer, hns]

theorem noMatch_active_eval : activeView noMatchState "piece-0" =
    some ⟨"piece-0", ["piece-0"], 0, 0, 0, (0, 0)⟩ := by
  simp +decide [noMatchState, activeView, mapGet, List.foldl, List.find?]

theorem noMatch_gates_eval :
    ∀ nid ∈ candidateIds noMatchState.pieces
      (⟨"piece-0", ["piece-0"], 0, 0, 0, (0, 0)⟩ : EntityView).pieceIds,
      qualifies noMatchState ⟨"piece-0", ["piece-0"], 0, 0, 0, (0, 0)⟩ 1 nid
        = none := by
  intro nid hnid
  norm_num +decide [candidateIds, mapGet, noMatchState, List.foldl] at hnid
  subst hnid
  norm_num +decide [qualifies, entityOfPiece, mapGet, noMatchState, List.foldl,
    List.find?, rotDiff_0_90, SNAP_ANGLE]

theorem C7_no_match_unchanged_witness :
    activeView noMatchState "piece-0" =
      some ⟨"piece-0", ["piece-0"], 0, 0, 0, (0, 0)⟩
    ∧ (∀ nid ∈ candidateIds noMatchState.pieces
        (⟨"piece-0", ["piece-0"], 0, 0, 0, (0, 0)⟩ : EntityView).pieceIds,
        qualifies noMatchState ⟨"piece-0", ["piece-0"], 0, 0, 0, (0, 0)⟩ 1 nid
          = none)
    ∧ reducer noMatchState (.trySnap "piece-0" 1 (fun _ => "group-x"))
        = noMatchState :=
  ⟨noMatch_active_eval, noMatch_gates_eval,
    C7_no_match_unchanged noMatchState "piece-0" 1 (fun _ => "group-x")
      ⟨"piece-0", ["piece-0"], 0, 0, 0, (0, 0)⟩ noMatch_active_eval
      noMatch_gates_eval⟩

/-! ## C6: invalid-id behaviour -/

/-- C6 counterexample: selecting an id that names no piece and no group is
not a no-op — it stores the dangling id in `selectedId` and increments the
z-order counter. -/
theorem C6_select_not_noop :
    reducer initialState (.select (some "nope")) ≠ initialState := by
  intro h
  have hz := congrArg PuzzleState.nextZ h
  simp +decide [reducer, initialState] at hz

/-- C6 amended: move, rotate and attemptSnap naming an id that matches no
piece and no group return the state unchanged; select with such a (non-empty)
id leaves pieces and groups unchanged but still sets `selectedId` to the
dangling id and increments the z-order counter. -/
theorem C6_invalid_id_amended :
    ∀ (s : PuzzleState) (id : String) (dx dy angle scale : ℝ) (gid : ℕ → String),
      id ≠ "" →
      (∀ p ∈ s.pieces, p.id ≠ id) →
      (∀ g ∈ s.groups, g.id ≠ id) →
      reducer s (.move id dx dy) = s
      ∧ reducer s (.rotate id angle) = s
      ∧ reducer s (.trySnap id scale gid) = s
      ∧ reducer s (.select (some id)) =
          { s with selectedId := some id, nextZ := s.nextZ + 1 } := by
  intro s id dx dy angle scale gid hne hp hg
  have hpm : ∀ (f : PuzzlePieceT → PuzzlePieceT),
      (∀ p, p.id ≠ id → f p = p) → s.pieces.map f = s.pieces := fun f hf =>
    map_id_of _ _ fun p hmem => hf p (hp p hmem)
  have hgm : ∀ (f : MergedGroupT → MergedGroupT),
      (∀ g, g.id ≠ id → f g = g) → s.groups.map f = s.groups := fun f hf =>
    map_id_of _ _ fun g hmem => hf g (hg g hmem)
  refine ⟨?_, ?_, ?_, ?_⟩
  · simp only [reducer]
    rw [hpm _ fun p h => if_neg h, hgm _ fun g h => if_neg h]
  · simp only [reducer]
    rw [hpm _ fun p h => if_neg h, hgm _ fun g h => if_neg h]
  · have hns : performSnap id s scale gid = none := by
      unfold performSnap
      apply performSnapFuel_no_merge
      intro active' ha'
      rw [activeView_eq_none hg hp] at ha'
      cases ha'
    simp [reducer, hns]
  · simp only [reducer, if_neg hne]
    rw [hpm _ fun p h => if_neg h, hgm _ fun g h => if_neg h]

theorem C6_invalid_id_amended_witness :
    ("nope" : String) ≠ ""
    ∧ (∀ p ∈ initialState.pieces, p.id ≠ "nope")
    ∧ (∀ g ∈ initialState.groups, g.id ≠ "nope")
    ∧ reducer initialState (.move "nope" 3 4) = initialState
    ∧ reducer initialState (.rotate "nope" 45) = initialState
    ∧ reducer initialState (.trySnap "nope" 1 (fun _ => "group-x")) = initialState
    ∧ reducer initialState (.select (some "nope")) =
        { initialState with selectedId := some "nope", nextZ := 2 } := by
  have h1 : ("nope" : String) ≠ "" := by decide
  have h2 : ∀ p ∈ initialState.pieces, p.id ≠ "nope" := by
    intro p hp; simp [initialState] at hp
  have h3 : ∀ g ∈ initialState.groups, g.id ≠ "nope" := by
    intro g hgm; simp [initialState] at hgm
  obtain ⟨ha, hb, hc, hd⟩ :=
    C6_invalid_id_amended initialState "nope" 3 4 45 1 (fun _ => "group-x")
      h1 h2 h3
  exact ⟨h1, h2, h3, ha, hb, hc, hd⟩

/-! ## Evaluating the grid generator on the 2x2 fixture -/

theorem mkPieceId_0 : mkPieceId 0 = "piece-0" := by decide
theorem mkPieceId_1 : mkPieceId 1 = "piece-1" := by decide
theorem mkPieceId_2 : mkPieceId 2 = "piece-2" := by decide
theorem mkPieceId_3 : mkPieceId 3 = "piece-3" := by decide

theorem gridCols_fixture : gridCols 100 100 4 = 2 := by
  rw [gridCols, show ((4 : ℕ) * (100 : ℝ) / 100) = 2 ^ 2 by norm_num,
    Real.sqrt_sq (by norm_num)]
  norm_num [round_eq]
  rfl

theorem gridRows_fixture : gridRows 4 2 = 2 := by
  rw [gridRows]
  norm_num [round_eq]
  rfl

theorem gen_fixture_eval :
    generatePuzzlePieces 100 100 4 1000 1000 scnRnd = [scnP0, scnP1, scnP2, scnP3] := by
  rw [generatePuzzlePieces]
  rw [gridCols_fixture, gridRows_fixture]
  rw [show List.range 2 = [0, 1] from rfl]
  simp only [List.flatMap_cons, List.flatMap_nil, List.map_cons, List.map_nil,
    List.append_nil, List.cons_append, List.nil_append]
  norm_num [gridPiece, gridNeighborIds, scnRnd, scnP0, scnP1, scnP2, scnP3,
    mkPieceId_0, mkPieceId_1, mkPieceId_2, mkPieceId_3, Prod.ext_iff]

theorem initScale_fixture : initScale 100 100 1000 1000 = 6 := by
  norm_num [initScale]

theorem steps_fixture_eval :
    reducer (reducer (reducer
      (reducer initialState (.init (generatePuzzlePieces 100 100 4 1000 1000 scnRnd)))
      (.rotate "piece-2" 90)) (.rotate "piece-3" 90)) (.move "piece-1" 300 0)
      = scnStateA := by
  rw [gen_fixture_eval]
  simp +decide [reducer, initialState, scnStateA, scnP0, scnP1, scnP2, scnP3,
    scnP1m, scnP2r, scnP3r]
  norm_num

theorem scnStateA_reachable : Reachable scnStateA 6 := by
  have h0 := Reachable.init 100 100 4 1000 1000 scnRnd (by norm_num) (by norm_num)
    (by norm_num) (by norm_num) (fun n => ⟨le_refl 0, by norm_num [scnRnd]⟩)
  rw [initScale_fixture] at h0
  have h1 := Reachable.rotate _ _ "piece-2" 90 h0
  have h2 := Reachable.rotate _ _ "piece-3" 90 h1
  have h3 := Reachable.move _ _ "piece-1" 300 0 h2
  rwa [steps_fixture_eval] at h3

/-! ## First snap on the fixture: piece-0 legitimately merges with piece-1 -/

theorem snap1_active : activeView scnStateA "piece-0" =
    some ⟨"piece-0", ["piece-0"], 60, 60, 0, (25, 25)⟩ := by
  simp +decide [scnStateA, activeView, mapGet, List.foldl, List.find?,
    scnP0, scnP1, scnP1m, scnP2, scnP2r, scnP3, scnP3r]

theorem snap1_candidates : candidateIds scnStateA.pieces ["piece-0"] =
    ["piece-2", "piece-1"] := by
  simp +decide [candidateIds, mapGet, scnStateA, scnP0, scnP1, scnP1m, scnP2,
    scnP2r, scnP3, scnP3r, List.foldl]

theorem snap1_reject2 : qualifies scnStateA
    ⟨"piece-0", ["piece-0"], 60, 60, 0, (25, 25)⟩ 6 "piece-2" = none := by
  norm_num +decide [qualifies, entityOfPiece, mapGet, scnStateA, scnP0, scnP1,
    scnP1m, scnP2, scnP2r, scnP3, scnP3r, List.foldl, List.find?, rotDiff_0_90,
    SNAP_ANGLE]

theorem snap1_accept1 : qualifies scnStateA
    ⟨"piece-0", ["piece-0"], 60, 60, 0, (25, 25)⟩ 6 "piece-1" =
    some ⟨"piece-1", ["piece-1"], 360, 60, 0, (75, 25)⟩ := by
  norm_num +decide [qualifies, entityOfPiece, mapGet, scnStateA, scnP0, scnP1,
    scnP1m, scnP2, scnP2r, scnP3, scnP3r, List.foldl, List.find?, rotDiff_0_0,
    SNAP_ANGLE, SNAP_DISTANCE, expectedPos, dist, Real.cos_zero, Real.sin_zero]

theorem snap1_find : (candidateIds scnStateA.pieces ["piece-0"]).findSome?
    (qualifies scnStateA ⟨"piece-0", ["piece-0"], 60, 60, 0, (25, 25)⟩ 6) =
    some ⟨"piece-1", ["piece-1"], 360, 60, 0, (75, 25)⟩ := by
  rw [snap1_candidates]
  simp [List.findSome?_cons, snap1_reject2, snap1_accept1]

theorem snap1_merge_eval : mergeState scnStateA
    ⟨"piece-0", ["piece-0"], 60, 60, 0, (25, 25)⟩
    ⟨"piece-1", ["piece-1"], 360, 60, 0, (75, 25)⟩ 6 "group-a" = scnState1 := by
  norm_num +decide [mergeState, mergedGroupOf, scnStateA, scnState1, scnG1, mapGet, List.foldl,
    groupCentroid, scnP0, scnP1, scnP1m, scnP2, scnP2r, scnP3, scnP3r,
    List.filter, Real.cos_zero, Real.sin_zero, Prod.ext_iff]

theorem snap1_chain_none : ∀ (fuel gi : ℕ) (gid' : ℕ → String),
    performSnapFuel gid' 6 fuel gi "group-a" scnState1 = none := by
  intro fuel gi gid'
  apply performSnapFuel_no_merge
  intro active ha
  simp +decide [scnState1, scnStateA, scnG1, activeView, mapGet, List.foldl,
    List.find?] at ha
  subst ha
  have hc : candidateIds scnState1.pieces ["piece-0", "piece-1"] =
      ["piece-2", "piece-3"] := by
    simp +decide [candidateIds, mapGet, scnState1, scnStateA, scnP0, scnP1,
      scnP1m, scnP2, scnP2r, scnP3, scnP3r, List.foldl]
  rw [hc]
  have h2 : qualifies scnState1 ⟨"group-a", ["piece-0", "piece-1"], 210, 60, 0,
      (50, 25)⟩ 6 "piece-2" = none := by
    norm_num +decide [qualifies, entityOfPiece, mapGet, scnState1, scnStateA,
      scnG1, scnP0, scnP1, scnP1m, scnP2, scnP2r, scnP3, scnP3r, List.foldl,
      List.find?, rotDiff_0_90, SNAP_ANGLE]
  have h3 : qualifies scnState1 ⟨"group-a", ["piece-0", "piece-1"], 210, 60, 0,
      (50, 25)⟩ 6 "piece-3" = none := by
    norm_num +decide [qualifies, entityOfPiece, mapGet, scnState1, scnStateA,
      scnG1, scnP0, scnP1, scnP1m, scnP2, scnP2r, scnP3, scnP3r, List.foldl,
      List.find?, rotDiff_0_90, SNAP_ANGLE]
  simp [List.findSome?_cons, h2, h3]

theorem snap1_eval :
    performSnap "piece-0" scnStateA 6 (fun _ => "group-a") = some scnState1 := by
  rw [performSnap, performSnapFuel_merge _ _ _ _ _ _ _ _
    (by norm_num [snapFuel]) snap1_active snap1_find]
  rw [snap1_merge_eval, snap1_chain_none]
  rfl

/-! ## Second snap on the fixture: the stale id "piece-0" (already absorbed
into group-a) is treated as a single piece and merged again. -/

theorem snap2_active : activeView scnState1 "piece-0" =
    some ⟨"piece-0", ["piece-0"], 60, 60, 0, (25, 25)⟩ := by
  simp +decide [scnState1, scnStateA, scnG1, activeView, mapGet, List.foldl,
    List.find?, scnP0, scnP1, scnP1m, scnP2, scnP2r, scnP3, scnP3r]

theorem snap2_candidates : candidateIds scnState1.pieces ["piece-0"] =
    ["piece-2", "piece-1"] := by
  simp +decide [candidateIds, mapGet, scnState1, scnStateA, scnP0, scnP1,
    scnP1m, scnP2, scnP2r, scnP3, scnP3r, List.foldl]

theorem snap2_reject2 : qualifies scnState1
    ⟨"piece-0", ["piece-0"], 60, 60, 0, (25, 25)⟩ 6 "piece-2" = none := by
  norm_num +decide [qualifies, entityOfPiece, mapGet, scnState1, scnStateA,
    scnG1, scnP0, scnP1, scnP1m, scnP2, scnP2r, scnP3, scnP3r, List.foldl,
    List.find?, rotDiff_0_90, SNAP_ANGLE]

theorem snap2_accept1 : qualifies scnState1
    ⟨"piece-0", ["piece-0"], 60, 60, 0, (25, 25)⟩ 6 "piece-1" =
    some ⟨"group-a", ["piece-0", "piece-1"], 210, 60, 0, (50, 25)⟩ := by
  norm_num +decide [qualifies, entityOfPiece, mapGet, scnState1, scnStateA,
    scnG1, scnP0, scnP1, scnP1m, scnP2, scnP2r, scnP3, scnP3r, List.foldl,
    List.find?, rotDiff_0_0, SNAP_ANGLE, SNAP_DISTANCE, expectedPos, dist,
    Real.cos_zero, Real.sin_zero]

theorem snap2_find : (candidateIds scnState1.pieces ["piece-0"]).findSome?
    (qualifies scnState1 ⟨"piece-0", ["piece-0"], 60, 60, 0, (25, 25)⟩ 6) =
    some ⟨"group-a", ["piece-0", "piece-1"], 210, 60, 0, (50, 25)⟩ := by
  rw [snap2_candidates]
  simp [List.findSome?_cons, snap2_reject2, snap2_accept1]

theorem snap2_merge_eval : mergeState scnState1
    ⟨"piece-0", ["piece-0"], 60, 60, 0, (25, 25)⟩
    ⟨"group-a", ["piece-0", "piece-1"], 210, 60, 0, (50, 25)⟩ 6 "group-b"
    = scnState2 := by
  norm_num +decide [mergeState, mergedGroupOf, scnState1, scnState2, scnStateA, scnG1, scnG2,
    mapGet, List.foldl, groupCentroid, scnP0, scnP1, scnP1m, scnP2, scnP2r,
    scnP3, scnP3r, List.filter, Real.cos_zero, Real.sin_zero, Prod.ext_iff]

theorem snap2_chain_none : ∀ (fuel gi : ℕ) (gid' : ℕ → String),
    performSnapFuel gid' 6 fuel gi "group-b" scnState2 = none := by
  intro fuel gi gid'
  apply performSnapFuel_no_merge
  intro active ha
  simp +decide [scnState2, scnStateA, scnG2, activeView, mapGet, List.foldl,
    List.find?] at ha
  subst ha
  have hc : candidateIds scnState2.pieces ["piece-0", "piece-0", "piece-1"] =
      ["piece-2", "piece-3"] := by
    simp +decide [candidateIds, mapGet, scnState2, scnStateA, scnP0, scnP1,
      scnP1m, scnP2, scnP2r, scnP3, scnP3r, List.foldl]
  rw [hc]
  have h2 : qualifies scnState2 ⟨"group-b", ["piece-0", "piece-0", "piece-1"],
      160, 60, 0, (125 / 3, 25)⟩ 6 "piece-2" = none := by
    norm_num +decide [qualifies, entityOfPiece, mapGet, scnState2, scnStateA,
      scnG2, scnP0, scnP1, scnP1m, scnP2, scnP2r, scnP3, scnP3r, List.foldl,
      List.find?, rotDiff_0_90, SNAP_ANGLE]
  have h3 : qualifies scnState2 ⟨"group-b", ["piece-0", "piece-0", "piece-1"],
      160, 60, 0, (125 / 3, 25)⟩ 6 "piece-3" = none := by
    norm_num +decide [qualifies, entityOfPiece, mapGet, scnState2, scnStateA,
      scnG2, scnP0, scnP1, scnP1m, scnP2, scnP2r, scnP3, scnP3r, List.foldl,
      List.find?, rotDiff_0_90, SNAP_ANGLE]
  simp [List.findSome?_cons, h2, h3]

theorem snap2_eval :
    performSnap "piece-0" scnState1 6 (fun _ => "group-b") = some scnState2 := by
  rw [performSnap, performSnapFuel_merge _ _ _ _ _ _ _ _
    (by norm_num [snapFuel]) snap2_active snap2_find]
  rw [snap2_merge_eval, snap2_chain_none]
  rfl

/-! ## Third snap on the fixture: the stale id "piece-1" merges once more and
the length-based completion test fires spuriously. -/

theorem snap3_active : activeView scnState2 "piece-1" =
    some ⟨"piece-1", ["piece-1"], 360, 60, 0, (75, 25)⟩ := by
  simp +decide [scnState2, scnStateA, scnG2, activeView, mapGet, List.foldl,
    List.find?, scnP0, scnP1, scnP1m, scnP2, scnP2r, scnP3, scnP3r]

theorem snap3_candidates : candidateIds scnState2.pieces ["piece-1"] =
    ["piece-3", "piece-0"] := by
  simp +decide [candidateIds, mapGet, scnState2, scnStateA, scnP0, scnP1,
    scnP1m, scnP2, scnP2r, scnP3, scnP3r, List.foldl]

theorem snap3_reject3 : qualifies scnState2
    ⟨"piece-1", ["piece-1"], 360, 60, 0, (75, 25)⟩ 6 "piece-3" = none := by
  norm_num +decide [qualifies, entityOfPiece, mapGet, scnState2, scnStateA,
    scnG2, scnP0, scnP1, scnP1m, scnP2, scnP2r, scnP3, scnP3r, List.foldl,
    List.find?, rotDiff_0_90, SNAP_ANGLE]

theorem snap3_accept0 : qualifies scnState2
    ⟨"piece-1", ["piece-1"], 360, 60, 0, (75, 25)⟩ 6 "piece-0" =
    some ⟨"group-b", ["piece-0", "piece-0", "piece-1"], 160, 60, 0,
      (125 / 3, 25)⟩ := by
  norm_num +decide [qualifies, entityOfPiece, mapGet, scnState2, scnStateA,
    scnG2, scnP0, scnP1, scnP1m, scnP2, scnP2r, scnP3, scnP3r, List.foldl,
    List.find?, rotDiff_0_0, SNAP_ANGLE, SNAP_DISTANCE, expectedPos, dist,
    Real.cos_zero, Real.sin_zero]

theorem snap3_find : (candidateIds scnState2.pieces ["piece-1"]).findSome?
    (qualifies scnState2 ⟨"piece-1", ["piece-1"], 360, 60, 0, (75, 25)⟩ 6) =
    some ⟨"group-b", ["piece-0", "piece-0", "piece-1"], 160, 60, 0,
      (125 / 3, 25)⟩ := by
  rw [snap3_candidates]
  simp [List.findSome?_cons, snap3_reject3, snap3_accept0]

theorem snap3_merge_eval : mergeState scnState2
    ⟨"piece-1", ["piece-1"], 360, 60, 0, (75, 25)⟩
    ⟨"group-b", ["piece-0", "piece-0", "piece-1"], 160, 60, 0, (125 / 3, 25)⟩
    6 "group-c" = scnState3 := by
  norm_num +decide [mergeState, mergedGroupOf, scnState2, scnState3, scnStateA, scnG2, scnG3,
    mapGet, List.foldl, groupCentroid, scnP0, scnP1, scnP1m, scnP2, scnP2r,
    scnP3, scnP3r, List.filter, Real.cos_zero, Real.sin_zero, Prod.ext_iff]

theorem snap3_chain_none : ∀ (fuel gi : ℕ) (gid' : ℕ → String),
    performSnapFuel gid' 6 fuel gi "group-c" scnState3 = none := by
  intro fuel gi gid'
  apply performSnapFuel_no_merge
  intro active ha
  simp +decide [scnState3, scnStateA, scnG3, activeView, mapGet, List.foldl,
    List.find?] at ha
  subst ha
  have hc : candidateIds scnState3.pieces
      ["piece-1", "piece-0", "piece-0", "piece-1"] = ["piece-3", "piece-2"] := by
    simp +decide [candidateIds, mapGet, scnState3, scnStateA, scnP0, scnP1,
      scnP1m, scnP2, scnP2r, scnP3, scnP3r, List.foldl]
  rw [hc]
  have h2 : qualifies scnState3 ⟨"group-c",
      ["piece-1", "piece-0", "piece-0", "piece-1"], 210, 60, 0, (50, 25)⟩ 6
      "piece-3" = none := by
    norm_num +decide [qualifies, entityOfPiece, mapGet, scnState3, scnStateA,
      scnG3, scnP0, scnP1, scnP1m, scnP2, scnP2r, scnP3, scnP3r, List.foldl,
      List.find?, rotDiff_0_90, SNAP_ANGLE]
  have h3 : qualifies scnState3 ⟨"group-c",
      ["piece-1", "piece-0", "piece-0", "piece-1"], 210, 60, 0, (50, 25)⟩ 6
      "piece-2" = none := by
    norm_num +decide [qualifies, entityOfPiece, mapGet, scnState3, scnStateA,
      scnG3, scnP0, scnP1, scnP1m, scnP2, scnP2r, scnP3, scnP3r, List.foldl,
      List.find?, rotDiff_0_90, SNAP_ANGLE]
  simp [List.findSome?_cons, h2, h3]

theorem snap3_eval :
    performSnap "piece-1" scnState2 6 (fun _ => "group-c") = some scnState3 := by
  rw [performSnap, performSnapFuel_merge _ _ _ _ _ _ _ _
    (by norm_num [snapFuel]) snap3_active snap3_find]
  rw [snap3_merge_eval, snap3_chain_none]
  rfl

theorem scnState1_reachable : Reachable scnState1 6 := by
  have h1 := Reachable.snap scnStateA 6 "piece-0" (fun _ => "group-a")
    (fun _ => ⟨"a", rfl⟩) scnStateA_reachable
  have e1 : reducer scnStateA (.trySnap "piece-0" 6 (fun _ => "group-a"))
      = scnState1 := by simp [reducer, snap1_eval]
  rwa [e1] at h1

theorem scnState2_reachable : Reachable scnState2 6 := by
  have h2 := Reachable.snap scnState1 6 "piece-0" (fun _ => "group-b")
    (fun _ => ⟨"b", rfl⟩) scnState1_reachable
  have e2 : reducer scnState1 (.trySnap "piece-0" 6 (fun _ => "group-b"))
      = scnState2 := by simp [reducer, snap2_eval]
  rwa [e2] at h2

theorem scnState3_reachable : Reachable scnState3 6 := by
  have h3 := Reachable.snap scnState2 6 "piece-1" (fun _ => "group-c")
    (fun _ => ⟨"c", rfl⟩) scnState2_reachable
  have e3 : reducer scnState2 (.trySnap "piece-1" 6 (fun _ => "group-c"))
      = scnState3 := by simp [reducer, snap3_eval]
  rwa [e3] at h3

/-- C3: the claim says every original piece id occurs exactly once across all
groups plus ungrouped pieces in every reachable state.  It fails: initialize
a 2×2 grid board, align and snap piece-0 with piece-1, then call attemptSnap
again with the stale id "piece-0" (exactly the UI race the spec's §7 says is
handled as a no-op).  The code treats the absorbed piece as a single, merges
it a second time with its own group, and reaches a state whose lone group
holds `["piece-0", "piece-0", "piece-1"]` — piece-0 twice.  The spec's
invariant is the stated intent (§3, §8) and its §7 says stale ids must be
no-ops, so this is a code bug: `performSnap` never checks that the active id
is not already absorbed in a group. -/
theorem C3_partition_invariant :
    Reachable scnState2 6
    ∧ (scnState2.groups.map fun g => g.pieceIds)
        = [["piece-0", "piece-0", "piece-1"]]
    ∧ ¬ (scnState2.groups.flatMap fun g => g.pieceIds).Nodup := by
  refine ⟨scnState2_reachable, ?_, ?_⟩
  · simp +decide [scnState2, scnStateA, scnG2]
  · simp +decide [scnState2, scnStateA, scnG2]

/-- C5: the claim says a merge sets `completed = true` iff the merged
membership equals the full original piece set.  The code compares only
id-list *length* with the piece count; after the stale-id double merges of
the C3 scenario, one more stale snap of "piece-1" produces a group whose
id list `["piece-1", "piece-0", "piece-0", "piece-1"]` has length 4 = piece
count, so the code sets `completed = true` although pieces 2 and 3 were never
merged.  The spec's membership-equality description is the intent, so this is
a code bug (inherited from the C3 stale-id slip). -/
theorem C5_completion :
    Reachable scnState3 6
    ∧ scnState3.completed = true
    ∧ (scnState3.groups.map fun g => g.pieceIds)
        = [["piece-1", "piece-0", "piece-0", "piece-1"]]
    ∧ "piece-2" ∈ scnState3.pieces.map (fun p => p.id)
    ∧ "piece-2" ∉ scnState3.groups.flatMap (fun g => g.pieceIds) := by
  refine ⟨scnState3_reachable, rfl, ?_, ?_, ?_⟩
  · simp +decide [scnState3, scnStateA, scnG3]
  · simp +decide [scnState3, scnStateA, scnP0, scnP1, scnP1m, scnP2, scnP2r,
      scnP3, scnP3r]
  · simp +decide [scnState3, scnStateA, scnG3]

/-! ## General chaining (C4) -/

theorem snapFuel_ne_zero (s : PuzzleState) : snapFuel s ≠ 0 := by
  simp [snapFuel]

theorem mergedGroupOf_id (s : PuzzleState) (a n : EntityView) (sc : ℝ)
    (nid : String) : (mergedGroupOf s a n sc nid).id = nid := rfl

theorem mergedGroupOf_pieceIds (s : PuzzleState) (a n : EntityView) (sc : ℝ)
    (nid : String) :
    (mergedGroupOf s a n sc nid).pieceIds = a.pieceIds ++ n.pieceIds := rfl

theorem mergedGroupOf_rotation (s : PuzzleState) (a n : EntityView) (sc : ℝ)
    (nid : String) : (mergedGroupOf s a n sc nid).rotation = a.rotation := rfl

/-- Predicting a candidate position from the merged group is the same as
predicting it from the group's anchor entity: the merge re-anchors the group
position with the same rotate-and-translate projection, so the group centroid
cancels.  This is the algebra behind chained merges. -/
theorem expectedPos_groupView (s : PuzzleState) (a n : EntityView) (sc : ℝ)
    (nid eid : String) (pids : List String) (c : Point) :
    expectedPos ⟨eid, pids, (mergedGroupOf s a n sc nid).x,
      (mergedGroupOf s a n sc nid).y, (mergedGroupOf s a n sc nid).rotation,
      (mergedGroupOf s a n sc nid).centroid⟩ c sc = expectedPos a c sc := by
  simp only [expectedPos, mergedGroupOf, Prod.mk.injEq]
  constructor <;> ring

/-- C4: after a merge the snap procedure is re-run with the new group as the
active entity, so for three mutually-neighboring pieces A, B, C, all pairwise
within both gates, a single attemptSnap on A produces one group containing
all three pieces. -/
theorem C4_chaining :
    ∀ (A B C : PuzzlePieceT) (s : PuzzleState) (scale : ℝ) (gid : ℕ → String),
      s.pieces = [A, B, C] → s.groups = [] →
      A.id ≠ B.id → A.id ≠ C.id → B.id ≠ C.id →
      (∀ k, gid k ≠ A.id ∧ gid k ≠ B.id ∧ gid k ≠ C.id) →
      A.neighborIds = [B.id, C.id] →
      B.neighborIds = [A.id, C.id] →
      C.neighborIds = [A.id, B.id] →
      rotDiffOf A.rotation B.rotation ≤ SNAP_ANGLE →
      rotDiffOf A.rotation C.rotation ≤ SNAP_ANGLE →
      rotDiffOf B.rotation C.rotation ≤ SNAP_ANGLE →
      dist (expectedPos (pieceView A) B.centroid scale) (B.x, B.y)
        ≤ SNAP_DISTANCE →
      dist (expectedPos (pieceView A) C.centroid scale) (C.x, C.y)
        ≤ SNAP_DISTANCE →
      dist (expectedPos (pieceView B) C.centroid scale) (C.x, C.y)
        ≤ SNAP_DISTANCE →
      ((reducer s (.trySnap A.id scale gid)).groups.map fun g => g.pieceIds)
        = [[A.id, B.id, C.id]] := by
  intro A B C s scale gid hpieces hgroups hAB hAC hBC hgid hnA hnB hnC
    hrAB hrAC hrBC hdAB hdAC hdBC
  simp only [pieceView] at hdAB hdAC hdBC
  have hBA := Ne.symm hAB
  have hCA := Ne.symm hAC
  have hCB := Ne.symm hBC
  obtain ⟨hg0A, hg0B, hg0C⟩ := hgid 0
  have hmapA : mapGet s.pieces A.id = some A := by
    rw [hpieces]; simp [mapGet, hBA, hCA]
  have hmapB : mapGet s.pieces B.id = some B := by
    rw [hpieces]; simp [mapGet, hAB, hCB]
  have hmapC : mapGet s.pieces C.id = some C := by
    rw [hpieces]; simp [mapGet, hAC, hBC]
  have hview1 : activeView s A.id =
      some ⟨A.id, [A.id], A.x, A.y, A.rotation, A.centroid⟩ := by
    simp [activeView, hgroups, hmapA]
  have hcand1 : candidateIds s.pieces [A.id] = [B.id, C.id] := by
    simp [candidateIds, hmapA, hnA, hBA, hCA, hCB]
  have hqB : qualifies s ⟨A.id, [A.id], A.x, A.y, A.rotation, A.centroid⟩
      scale B.id = some ⟨B.id, [B.id], B.x, B.y, B.rotation, B.centroid⟩ := by
    simp only [qualifies, entityOfPiece, hgroups, List.find?_nil, hmapB]
    rw [if_neg hBA, if_neg (not_lt.mpr hrAB), if_neg (not_lt.mpr hdAB)]
  have hfind1 : (candidateIds s.pieces
      (⟨A.id, [A.id], A.x, A.y, A.rotation, A.centroid⟩ : EntityView).pieceIds).findSome?
      (qualifies s ⟨A.id, [A.id], A.x, A.y, A.rotation, A.centroid⟩ scale) =
      some ⟨B.id, [B.id], B.x, B.y, B.rotation, B.centroid⟩ := by
    show (candidateIds s.pieces [A.id]).findSome? _ = _
    rw [hcand1]
    simp [List.findSome?_cons, hqB]
  simp only [reducer]
  rw [performSnap, performSnapFuel_merge gid scale (snapFuel s) 0 A.id s _ _
    (snapFuel_ne_zero s) hview1 hfind1, Option.getD_some]
  set G1 := mergedGroupOf s ⟨A.id, [A.id], A.x, A.y, A.rotation, A.centroid⟩
    ⟨B.id, [B.id], B.x, B.y, B.rotation, B.centroid⟩ scale (gid 0) with hG1def
  set s1 := mergeState s ⟨A.id, [A.id], A.x, A.y, A.rotation, A.centroid⟩
    ⟨B.id, [B.id], B.x, B.y, B.rotation, B.centroid⟩ scale (gid 0) with hs1def
  have hG1id : G1.id = gid 0 := by rw [hG1def]; rfl
  have hG1pids : G1.pieceIds = [A.id, B.id] := by rw [hG1def]; rfl
  have hG1rot : G1.rotation = A.rotation := by rw [hG1def]; rfl
  have hs1groups : s1.groups = [G1] := by
    rw [hs1def, hG1def]
    simp only [mergeState]
    rw [hgroups]
    rfl
  have hs1pieces : s1.pieces = s.pieces := by rw [hs1def]; rfl
  have hview2 : activeView s1 (gid 0) =
      some ⟨G1.id, G1.pieceIds, G1.x, G1.y, G1.rotation, G1.centroid⟩ := by
    rw [activeView, hs1groups, List.find?_cons_of_pos _ (by simp [hG1id])]
  have hfz2 : snapFuel s - 1 ≠ 0 := by
    rw [snapFuel, hpieces]
    simp [hnA, hnB, hnC]
  have hcand2 : candidateIds s.pieces [A.id, B.id] = [C.id] := by
    simp [candidateIds, hmapA, hmapB, hnA, hnB, hBA, hCA, hCB, hAB]
  have hentC : entityOfPiece s1 C.id =
      some ⟨C.id, [C.id], C.x, C.y, C.rotation, C.centroid⟩ := by
    rw [entityOfPiece, hs1groups,
      List.find?_cons_of_neg _ (by simp [hG1pids, hCA, hCB])]
    simp [hs1pieces, hmapC]
  have hqC : ∀ pids : List String, qualifies s1 ⟨G1.id, pids, G1.x, G1.y,
      G1.rotation, G1.centroid⟩ scale C.id =
      some ⟨C.id, [C.id], C.x, C.y, C.rotation, C.centroid⟩ := by
    intro pids
    simp only [qualifies, hentC]
    rw [if_neg ?c1, if_neg ?c2, if_neg ?c3]
    case c1 =>
      show ¬C.id = G1.id
      rw [hG1id]
      exact Ne.symm hg0C
    case c2 =>
      show ¬rotDiffOf G1.rotation C.rotation > SNAP_ANGLE
      rw [hG1rot]
      exact not_lt.mpr hrAC
    case c3 =>
      rw [hG1def, expectedPos_groupView]
      exact not_lt.mpr hdAC
  have hfind2 : (candidateIds s1.pieces
      (⟨G1.id, G1.pieceIds, G1.x, G1.y, G1.rotation, G1.centroid⟩ :
        EntityView).pieceIds).findSome?
      (qualifies s1 ⟨G1.id, G1.pieceIds, G1.x, G1.y, G1.rotation, G1.centroid⟩
        scale) = some ⟨C.id, [C.id], C.x, C.y, C.rotation, C.centroid⟩ := by
    show (candidateIds s1.pieces G1.pieceIds).findSome? _ = _
    rw [hs1pieces, hG1pids, hcand2]
    simp [List.findSome?_cons, hqC]
  rw [performSnapFuel_merge gid scale (snapFuel s - 1) (0 + 1) (gid 0) s1 _ _
    hfz2 hview2 hfind2, Option.getD_some]
  set G2 := mergedGroupOf s1
    ⟨G1.id, G1.pieceIds, G1.x, G1.y, G1.rotation, G1.centroid⟩
    ⟨C.id, [C.id], C.x, C.y, C.rotation, C.centroid⟩ scale (gid (0 + 1))
    with hG2def
  set s2 := mergeState s1
    ⟨G1.id, G1.pieceIds, G1.x, G1.y, G1.rotation, G1.centroid⟩
    ⟨C.id, [C.id], C.x, C.y, C.rotation, C.centroid⟩ scale (gid (0 + 1))
    with hs2def
  have hG2id : G2.id = gid (0 + 1) := by rw [hG2def]; rfl
  have hG2pids : G2.pieceIds = [A.id, B.id, C.id] := by
    rw [hG2def, mergedGroupOf_pieceIds]
    show G1.pieceIds ++ [C.id] = _
    rw [hG1pids]
    rfl
  have hs2groups : s2.groups = [G2] := by
    rw [hs2def, hG2def]
    simp only [mergeState]
    rw [hs1groups]
    show [G1].filter _ ++ _ = _
    rw [List.filter_cons_of_neg (by simp [hG1id]), List.filter_nil]
    rfl
  have hs2pieces : s2.pieces = s.pieces := hs1pieces
  have hcand3 : candidateIds s.pieces [A.id, B.id, C.id] = [] := by
    simp [candidateIds, hmapA, hmapB, hmapC, hnA, hnB, hnC, hBA, hCA, hCB,
      hAB, hAC, hBC]
  rw [performSnapFuel_no_merge]
  · simp only [Option.getD_none]
    rw [hs2groups]
    simp [hG2pids]
  · intro active3 ha3
    rw [activeView, hs2groups, List.find?_cons_of_pos _ (by simp [hG2id])] at ha3
    dsimp only at ha3
    rw [Option.some.injEq] at ha3
    subst ha3
    show ((candidateIds s2.pieces G2.pieceIds).findSome? _) = none
    rw [hs2pieces, hG2pids, hcand3]
    rfl

theorem chain_rot_pair : rotDiffOf (0 : ℝ) 0 ≤ SNAP_ANGLE := by
  rw [rotDiff_0_0, SNAP_ANGLE]; norm_num

theorem chain_dist_AB :
    dist (expectedPos (pieceView chainA) chainB.centroid 1) (chainB.x, chainB.y)
      ≤ SNAP_DISTANCE := by
  norm_num [pieceView, chainA, chainB, expectedPos, dist, SNAP_DISTANCE,
    Real.cos_zero, Real.sin_zero]

theorem chain_dist_AC :
    dist (expectedPos (pieceView chainA) chainC.centroid 1) (chainC.x, chainC.y)
      ≤ SNAP_DISTANCE := by
  norm_num [pieceView, chainA, chainC, expectedPos, dist, SNAP_DISTANCE,
    Real.cos_zero, Real.sin_zero]

theorem chain_dist_BC :
    dist (expectedPos (pieceView chainB) chainC.centroid 1) (chainC.x, chainC.y)
      ≤ SNAP_DISTANCE := by
  norm_num [pieceView, chainB, chainC, expectedPos, dist, SNAP_DISTANCE,
    Real.cos_zero, Real.sin_zero]

theorem C4_chaining_witness :
    chainState.pieces = [chainA, chainB, chainC]
    ∧ chainState.groups = []
    ∧ rotDiffOf chainA.rotation chainB.rotation ≤ SNAP_ANGLE
    ∧ rotDiffOf chainA.rotation chainC.rotation ≤ SNAP_ANGLE
    ∧ rotDiffOf chainB.rotation chainC.rotation ≤ SNAP_ANGLE
    ∧ dist (expectedPos (pieceView chainA) chainB.centroid 1)
        (chainB.x, chainB.y) ≤ SNAP_DISTANCE
    ∧ dist (expectedPos (pieceView chainA) chainC.centroid 1)
        (chainC.x, chainC.y) ≤ SNAP_DISTANCE
    ∧ dist (expectedPos (pieceView chainB) chainC.centroid 1)
        (chainC.x, chainC.y) ≤ SNAP_DISTANCE
    ∧ ((reducer chainState (.trySnap chainA.id 1 (fun _ => "g"))).groups.map
        fun g => g.pieceIds) = [[chainA.id, chainB.id, chainC.id]] :=
  ⟨rfl, rfl, chain_rot_pair, chain_rot_pair, chain_rot_pair,
    chain_dist_AB, chain_dist_AC, chain_dist_BC,
    C4_chaining chainA chainB chainC chainState 1 (fun _ => "g") rfl rfl
      (by decide) (by decide) (by decide)
      (fun _ => ⟨show ("g" : String) ≠ chainA.id by decide,
        show ("g" : String) ≠ chainB.id by decide,
        show ("g" : String) ≠ chainC.id by decide⟩)
      rfl rfl rfl chain_rot_pair chain_rot_pair chain_rot_pair
      chain_dist_AB chain_dist_AC chain_dist_BC⟩

/-! ## C8: grid edge complementarity -/

theorem hEdgeDir_ne_zero (rnd : ℕ → ℝ) (cols r c : ℕ) :
    hEdgeDir rnd cols r c ≠ 0 := by
  rw [hEdgeDir]; split <;> omega

theorem vEdgeDir_ne_zero (rnd : ℕ → ℝ) (rows cols r c : ℕ) :
    vEdgeDir rnd rows cols r c ≠ 0 := by
  rw [vEdgeDir]; split <;> omega

theorem hEdgeDir_cases (rnd : ℕ → ℝ) (cols r c : ℕ) :
    hEdgeDir rnd cols r c = 1 ∨ hEdgeDir rnd cols r c = -1 := by
  rw [hEdgeDir]; split <;> simp

theorem vEdgeDir_cases (rnd : ℕ → ℝ) (rows cols r c : ℕ) :
    vEdgeDir rnd rows cols r c = 1 ∨ vEdgeDir rnd rows cols r c = -1 := by
  rw [vEdgeDir]; split <;> simp

/-- C8: for any two grid-adjacent cells, both sides of the shared edge are
read off the single shared table entry (hEdge for vertical neighbors, vEdge
for horizontal neighbors), one cell's direction is exactly the negation of
the other's (+1 tab iff the other −1 blank, never tab/tab, blank/blank or a
flat/curved mismatch), and a cell's edge direction is 0 (flat) iff that edge
lies on the puzzle boundary. -/
theorem C8_grid_complementarity :
    ∀ (rnd : ℕ → ℝ) (rows cols r c : ℕ),
      (r + 1 < rows →
        bottomDir rnd rows cols r c = hEdgeDir rnd cols r c
        ∧ topDir rnd rows cols (r + 1) c = -hEdgeDir rnd cols r c
        ∧ (bottomDir rnd rows cols r c = 1 ↔ topDir rnd rows cols (r + 1) c = -1)
        ∧ (bottomDir rnd rows cols r c = -1 ↔ topDir rnd rows cols (r + 1) c = 1)
        ∧ bottomDir rnd rows cols r c ≠ 0
        ∧ topDir rnd rows cols (r + 1) c ≠ 0)
      ∧ (c + 1 < cols →
        rightDir rnd rows cols r c = vEdgeDir rnd rows cols r c
        ∧ leftDir rnd rows cols r (c + 1) = -vEdgeDir rnd rows cols r c
        ∧ (rightDir rnd rows cols r c = 1 ↔ leftDir rnd rows cols r (c + 1) = -1)
        ∧ (rightDir rnd rows cols r c = -1 ↔ leftDir rnd rows cols r (c + 1) = 1)
        ∧ rightDir rnd rows cols r c ≠ 0
        ∧ leftDir rnd rows cols r (c + 1) ≠ 0)
      ∧ (topDir rnd rows cols r c = 0 ↔ r = 0)
      ∧ (bottomDir rnd rows cols r c = 0 ↔ ¬r < rows - 1)
      ∧ (leftDir rnd rows cols r c = 0 ↔ c = 0)
      ∧ (rightDir rnd rows cols r c = 0 ↔ ¬c < cols - 1) := by
  intro rnd rows cols r c
  refine ⟨?_, ?_, ?_, ?_, ?_, ?_⟩
  · intro h
    have hb : bottomDir rnd rows cols r c = hEdgeDir rnd cols r c := by
      rw [bottomDir, if_pos (by omega)]
    have ht : topDir rnd rows cols (r + 1) c = -hEdgeDir rnd cols r c := by
      rw [topDir, if_pos (by omega)]
      simp
    refine ⟨hb, ht, ?_, ?_, ?_, ?_⟩
    · rw [hb, ht]; omega
    · rw [hb, ht]; omega
    · rw [hb]; exact hEdgeDir_ne_zero rnd cols r c
    · rw [ht]; simpa using hEdgeDir_ne_zero rnd cols r c
  · intro h
    have hrt : rightDir rnd rows cols r c = vEdgeDir rnd rows cols r c := by
      rw [rightDir, if_pos (by omega)]
    have hlt : leftDir rnd rows cols r (c + 1) = -vEdgeDir rnd rows cols r c := by
      rw [leftDir, if_pos (by omega)]
      simp
    refine ⟨hrt, hlt, ?_, ?_, ?_, ?_⟩
    · rw [hrt, hlt]; omega
    · rw [hrt, hlt]; omega
    · rw [hrt]; exact vEdgeDir_ne_zero rnd rows cols r c
    · rw [hlt]; simpa using vEdgeDir_ne_zero rnd rows cols r c
  · rw [topDir]
    split
    · rcases hEdgeDir_cases rnd cols (r - 1) c with h1 | h1 <;> simp [h1] <;> omega
    · simp; omega
  · rw [bottomDir]
    split
    · next h => simp [hEdgeDir_ne_zero, h]
    · next h => simp [h]
  · rw [leftDir]
    split
    · rcases vEdgeDir_cases rnd rows cols r (c - 1) with h1 | h1 <;>
        simp [h1] <;> omega
    · simp; omega
  · rw [rightDir]
    split
    · next h => simp [vEdgeDir_ne_zero, h]
    · next h => simp [h]

theorem C8_grid_complementarity_witness :
    ((0 : ℕ) + 1 < 2)
    ∧ (bottomDir scnRnd 2 2 0 0 = hEdgeDir scnRnd 2 0 0
      ∧ topDir scnRnd 2 2 (0 + 1) 0 = -hEdgeDir scnRnd 2 0 0
      ∧ (bottomDir scnRnd 2 2 0 0 = 1 ↔ topDir scnRnd 2 2 (0 + 1) 0 = -1)
      ∧ (bottomDir scnRnd 2 2 0 0 = -1 ↔ topDir scnRnd 2 2 (0 + 1) 0 = 1)
      ∧ bottomDir scnRnd 2 2 0 0 ≠ 0
      ∧ topDir scnRnd 2 2 (0 + 1) 0 ≠ 0) :=
  ⟨by norm_num, (C8_grid_complementarity scnRnd 2 2 0 0).1 (by norm_num)⟩

/-! ## C9: neighbor symmetry, grid strategy -/

theorem gridIdx_inj {cols r c r' c' : ℕ} (hc : c < cols) (hc' : c' < cols)
    (h : r * cols + c = r' * cols + c') : r = r' ∧ c = c' := by
  have hpos : 0 < cols := by omega
  have e1 : (c + r * cols) / cols = r := by
    rw [Nat.add_mul_div_right _ _ hpos, Nat.div_eq_of_lt hc]
    omega
  have e2 : (c' + r' * cols) / cols = r' := by
    rw [Nat.add_mul_div_right _ _ hpos, Nat.div_eq_of_lt hc']
    omega
  have h' : c + r * cols = c' + r' * cols := by omega
  have hr : r = r' := by rw [← e1, ← e2, h']
  subst hr
  exact ⟨rfl, by omega⟩

theorem mem_gridNeighborIds {rows cols r c k : ℕ} :
    mkPieceId k ∈ gridNeighborIds rows cols r c ↔
      (0 < r ∧ k = (r - 1) * cols + c) ∨ (r < rows - 1 ∧ k = (r + 1) * cols + c)
      ∨ (0 < c ∧ k = r * cols + (c - 1))
      ∨ (c < cols - 1 ∧ k = r * cols + (c + 1)) := by
  rw [gridNeighborIds]
  by_cases h1 : 0 < r <;> by_cases h2 : r < rows - 1 <;>
    by_cases h3 : 0 < c <;> by_cases h4 : c < cols - 1 <;>
    simp [h1, h2, h3, h4, mkPieceId_eq_iff, eq_comm]

theorem grid_nbr_step {rows cols : ℕ} {r c r' c' : ℕ}
    (hc : c < cols) (hc' : c' < cols) (hr : r < rows) (hr' : r' < rows)
    (h : mkPieceId (r * cols + c) ∈ gridNeighborIds rows cols r' c') :
    mkPieceId (r' * cols + c') ∈ gridNeighborIds rows cols r c := by
  rw [mem_gridNeighborIds] at h ⊢
  rcases h with ⟨h0, hk⟩ | ⟨h0, hk⟩ | ⟨h0, hk⟩ | ⟨h0, hk⟩
  · obtain ⟨hre, hce⟩ := gridIdx_inj hc hc' hk
    have hr1 : r' = r + 1 := by omega
    subst hr1
    subst hce
    exact Or.inr (Or.inl ⟨by omega, rfl⟩)
  · obtain ⟨hre, hce⟩ := gridIdx_inj hc hc' hk
    have hr1 : r = r' + 1 := by omega
    subst hr1
    subst hce
    exact Or.inl ⟨by omega, rfl⟩
  · have hc1 : c' - 1 < cols := by omega
    obtain ⟨hre, hce⟩ := gridIdx_inj hc hc1 hk
    have hceq : c' = c + 1 := by omega
    subst hre
    subst hceq
    exact Or.inr (Or.inr (Or.inr ⟨by omega, rfl⟩))
  · have hc1 : c' + 1 < cols := by omega
    obtain ⟨hre, hce⟩ := gridIdx_inj hc hc1 hk
    have hceq : c = c' + 1 := by omega
    subst hre
    subst hceq
    exact Or.inr (Or.inr (Or.inl ⟨by omega, rfl⟩))

theorem gridCols_pos (iw ih : ℝ) (count : ℕ) : 0 < gridCols iw ih count := by
  rw [gridCols]
  have h2 : (2 : ℤ) ≤ max 2 (round (Real.sqrt (count * iw / ih))) := le_max_left _ _
  have := Int.toNat_le_toNat h2
  omega

theorem gridPiece_id (iw ih bw bh : ℝ) (rnd : ℕ → ℝ) (rows cols r c : ℕ) :
    (gridPiece iw ih bw bh rnd rows cols r c).id = mkPieceId (r * cols + c) := rfl

theorem gridPiece_neighborIds (iw ih bw bh : ℝ) (rnd : ℕ → ℝ)
    (rows cols r c : ℕ) :
    (gridPiece iw ih bw bh rnd rows cols r c).neighborIds =
      gridNeighborIds rows cols r c := rfl

theorem mem_generatePuzzlePieces {iw ih bw bh : ℝ} {count : ℕ} {rnd : ℕ → ℝ}
    {P : PuzzlePieceT} :
    P ∈ generatePuzzlePieces iw ih count bw bh rnd ↔
      ∃ r, r < gridRows count (gridCols iw ih count) ∧
        ∃ c, c < gridCols iw ih count ∧
          P = gridPiece iw ih bw bh rnd (gridRows count (gridCols iw ih count))
            (gridCols iw ih count) r c := by
  rw [generatePuzzlePieces]
  simp only [List.mem_flatMap, List.mem_map, List.mem_range]
  constructor
  · rintro ⟨r, hr, c, hc, rfl⟩
    exact ⟨r, hr, c, hc, rfl⟩
  · rintro ⟨r, hr, c, hc, rfl⟩
    exact ⟨r, hr, c, hc, rfl⟩

/-! ## C9: neighbor symmetry, organic strategy -/

theorem mem_addNbr {m : ℕ → List ℕ} {a b k x : ℕ} :
    x ∈ addNbr m a b k ↔ x ∈ m k ∨ (k = a ∧ x = b) := by
  simp only [addNbr]
  split_ifs with hk hb
  · subst hk
    constructor
    · exact Or.inl
    · rintro (h | ⟨-, rfl⟩)
      · exact h
      · exact hb
  · subst hk
    rw [List.mem_append, List.mem_singleton]
    simp
  · simp [hk]

theorem mem_innerFold (dnl : List ℕ) (i : ℕ) : ∀ (m : ℕ → List ℕ) (k x : ℕ),
    x ∈ (dnl.foldl (fun m2 j => addNbr (addNbr m2 i j) j i) m) k ↔
      x ∈ m k ∨ (k = i ∧ x ∈ dnl) ∨ (x = i ∧ k ∈ dnl) := by
  induction dnl with
  | nil => simp
  | cons j T ih =>
    intro m k x
    rw [List.foldl_cons, ih]
    have hstep : x ∈ addNbr (addNbr m i j) j i k ↔
        x ∈ m k ∨ (k = i ∧ x = j) ∨ (k = j ∧ x = i) := by
      rw [mem_addNbr, mem_addNbr, or_assoc]
    rw [hstep]
    simp only [List.mem_cons]
    constructor
    · rintro ((h | ⟨rfl, rfl⟩ | ⟨rfl, rfl⟩) | ⟨rfl, h⟩ | ⟨rfl, h⟩)
      · exact Or.inl h
      · exact Or.inr (Or.inl ⟨rfl, Or.inl rfl⟩)
      · exact Or.inr (Or.inr ⟨rfl, Or.inl rfl⟩)
      · exact Or.inr (Or.inl ⟨rfl, Or.inr h⟩)
      · exact Or.inr (Or.inr ⟨rfl, Or.inr h⟩)
    · rintro (h | ⟨rfl, rfl | h⟩ | ⟨rfl, rfl | h⟩)
      · exact Or.inl (Or.inl h)
      · exact Or.inl (Or.inr (Or.inl ⟨rfl, rfl⟩))
      · exact Or.inr (Or.inl ⟨rfl, h⟩)
      · exact Or.inl (Or.inr (Or.inr ⟨rfl, rfl⟩))
      · exact Or.inr (Or.inr ⟨rfl, h⟩)

theorem mem_outerFold (dn : ℕ → List ℕ) (L : List ℕ) : ∀ (m : ℕ → List ℕ)
    (k x : ℕ),
    x ∈ (L.foldl (fun m2 i => (dn i).foldl
        (fun m3 j => addNbr (addNbr m3 i j) j i) m2) m) k ↔
      x ∈ m k ∨ (k ∈ L ∧ x ∈ dn k) ∨ (x ∈ L ∧ k ∈ dn x) := by
  induction L with
  | nil => simp
  | cons i T ih =>
    intro m k x
    rw [List.foldl_cons, ih]
    rw [mem_innerFold]
    simp only [List.mem_cons]
    constructor
    · rintro ((h | ⟨rfl, h⟩ | ⟨rfl, h⟩) | ⟨hk, h⟩ | ⟨hx, h⟩)
      · exact Or.inl h
      · exact Or.inr (Or.inl ⟨Or.inl rfl, h⟩)
      · exact Or.inr (Or.inr ⟨Or.inl rfl, h⟩)
      · exact Or.inr (Or.inl ⟨Or.inr hk, h⟩)
      · exact Or.inr (Or.inr ⟨Or.inr hx, h⟩)
    · rintro (h | ⟨rfl | hk, h⟩ | ⟨rfl | hx, h⟩)
      · exact Or.inl (Or.inl h)
      · exact Or.inl (Or.inr (Or.inl ⟨rfl, h⟩))
      · exact Or.inr (Or.inl ⟨hk, h⟩)
      · exact Or.inl (Or.inr (Or.inr ⟨rfl, h⟩))
      · exact Or.inr (Or.inr ⟨hx, h⟩)

theorem mem_symNbrs {count : ℕ} {dn : ℕ → List ℕ} {k x : ℕ} :
    x ∈ symNbrs count dn k ↔
      (k < count ∧ x ∈ dn k) ∨ (x < count ∧ k ∈ dn x) := by
  rw [symNbrs, mem_outerFold]
  simp [List.mem_range]

theorem organicPiece_id (count : ℕ) (dn : ℕ → List ℕ) (bw bh : ℝ)
    (rnd : ℕ → ℝ) (i : ℕ) (cell : List Point) :
    (organicPiece count dn bw bh rnd i cell).id = mkPieceId i := rfl

theorem organicPiece_neighborIds (count : ℕ) (dn : ℕ → List ℕ) (bw bh : ℝ)
    (rnd : ℕ → ℝ) (i : ℕ) (cell : List Point) :
    (organicPiece count dn bw bh rnd i cell).neighborIds =
      (symNbrs count dn i).map mkPieceId := rfl

theorem mem_generateOrganicPieces {count : ℕ} {dn : ℕ → List ℕ}
    {cellPoly : ℕ → Option (List Point)} {bw bh : ℝ} {rnd : ℕ → ℝ}
    {P : PuzzlePieceT} :
    P ∈ generateOrganicPieces count dn cellPoly bw bh rnd ↔
      ∃ i, i < count ∧ ∃ cell, cellPoly i = some cell ∧
        P = organicPiece count dn bw bh rnd i cell := by
  rw [generateOrganicPieces]
  simp only [List.mem_filterMap, List.mem_range, Option.map_eq_some']
  constructor
  · rintro ⟨i, hi, cell, hc, rfl⟩
    exact ⟨i, hi, cell, hc, rfl⟩
  · rintro ⟨i, hi, cell, hc, rfl⟩
    exact ⟨i, hi, cell, hc, rfl⟩

/-- C9: for both tessellation strategies the neighbor relation on generated
pieces is symmetric: B is in A's neighborIds iff A is in B's.  The grid
strategy gets it from 4-adjacency of grid cells; the organic strategy gets it
from the explicit symmetrisation loop over the Delaunay neighbor sets (the
hypothesis that `dn` returns indices below `count` reflects d3-delaunay's
contract; the JS code would throw on an out-of-range index). -/
theorem C9_neighbor_symmetry :
    (∀ (iw ih bw bh : ℝ) (count : ℕ) (rnd : ℕ → ℝ) (P Q : PuzzlePieceT),
      P ∈ generatePuzzlePieces iw ih count bw bh rnd →
      Q ∈ generatePuzzlePieces iw ih count bw bh rnd →
      (P.id ∈ Q.neighborIds ↔ Q.id ∈ P.neighborIds))
    ∧ (∀ (count : ℕ) (dn : ℕ → List ℕ) (cellPoly : ℕ → Option (List Point))
        (bw bh : ℝ) (rnd : ℕ → ℝ) (P Q : PuzzlePieceT),
      (∀ i, ∀ j ∈ dn i, j < count) →
      P ∈ generateOrganicPieces count dn cellPoly bw bh rnd →
      Q ∈ generateOrganicPieces count dn cellPoly bw bh rnd →
      (P.id ∈ Q.neighborIds ↔ Q.id ∈ P.neighborIds)) := by
  constructor
  · intro iw ih bw bh count rnd P Q hP hQ
    rw [mem_generatePuzzlePieces] at hP hQ
    obtain ⟨r, hr, c, hc, rfl⟩ := hP
    obtain ⟨r', hr', c', hc', rfl⟩ := hQ
    rw [gridPiece_id, gridPiece_id, gridPiece_neighborIds,
      gridPiece_neighborIds]
    exact ⟨grid_nbr_step hc hc' hr hr', grid_nbr_step hc' hc hr' hr⟩
  · intro count dn cellPoly bw bh rnd P Q hdn hP hQ
    rw [mem_generateOrganicPieces] at hP hQ
    obtain ⟨i, hi, cell, hcell, rfl⟩ := hP
    obtain ⟨j, hj, cell', hcell', rfl⟩ := hQ
    rw [organicPiece_id, organicPiece_id, organicPiece_neighborIds,
      organicPiece_neighborIds]
    have hmem : ∀ a b : ℕ, mkPieceId a ∈ (symNbrs count dn b).map mkPieceId ↔
        a ∈ symNbrs count dn b := by
      intro a b
      rw [List.mem_map]
      constructor
      · rintro ⟨y, hy, hid⟩
        have hya := mkPieceId_inj hid
        subst hya
        exact hy
      · intro h
        exact ⟨a, h, rfl⟩
    rw [hmem, hmem, mem_symNbrs, mem_symNbrs]
    constructor
    · rintro (⟨_, h⟩ | ⟨_, h⟩)
      · exact Or.inr ⟨hj, h⟩
      · exact Or.inl ⟨hi, h⟩
    · rintro (⟨_, h⟩ | ⟨_, h⟩)
      · exact Or.inr ⟨hi, h⟩
      · exact Or.inl ⟨hj, h⟩

theorem org_fixture_eval : generateOrganicPieces 2 orgDn orgCell 1000 1000 scnRnd
    = [organicPiece 2 orgDn 1000 1000 scnRnd 0
        [((0 : ℝ), (0 : ℝ)), (1, 0), (0, 1), (0, 0)],
       organicPiece 2 orgDn 1000 1000 scnRnd 1
        [((0 : ℝ), (0 : ℝ)), (1, 0), (0, 1), (0, 0)]] := by
  rw [generateOrganicPieces, show List.range 2 = [0, 1] from rfl]
  simp [orgCell, List.filterMap_cons]

theorem orgDn_bound : ∀ i, ∀ j ∈ orgDn i, j < 2 := by
  intro i j hj
  simp only [orgDn] at hj
  split_ifs at hj <;> simp at hj <;> omega

theorem C9_neighbor_symmetry_witness :
    scnP0 ∈ generatePuzzlePieces 100 100 4 1000 1000 scnRnd
    ∧ scnP1 ∈ generatePuzzlePieces 100 100 4 1000 1000 scnRnd
    ∧ (scnP0.id ∈ scnP1.neighborIds ↔ scnP1.id ∈ scnP0.neighborIds)
    ∧ (∀ i, ∀ j ∈ orgDn i, j < 2)
    ∧ organicPiece 2 orgDn 1000 1000 scnRnd 0
        [((0 : ℝ), (0 : ℝ)), (1, 0), (0, 1), (0, 0)]
      ∈ generateOrganicPieces 2 orgDn orgCell 1000 1000 scnRnd
    ∧ organicPiece 2 orgDn 1000 1000 scnRnd 1
        [((0 : ℝ), (0 : ℝ)), (1, 0), (0, 1), (0, 0)]
      ∈ generateOrganicPieces 2 orgDn orgCell 1000 1000 scnRnd
    ∧ ((organicPiece 2 orgDn 1000 1000 scnRnd 0
        [((0 : ℝ), (0 : ℝ)), (1, 0), (0, 1), (0, 0)]).id
      ∈ (organicPiece 2 orgDn 1000 1000 scnRnd 1
        [((0 : ℝ), (0 : ℝ)), (1, 0), (0, 1), (0, 0)]).neighborIds ↔
      (organicPiece 2 orgDn 1000 1000 scnRnd 1
        [((0 : ℝ), (0 : ℝ)), (1, 0), (0, 1), (0, 0)]).id
      ∈ (organicPiece 2 orgDn 1000 1000 scnRnd 0
        [((0 : ℝ), (0 : ℝ)), (1, 0), (0, 1), (0, 0)]).neighborIds) := by
  have hm0 : scnP0 ∈ generatePuzzlePieces 100 100 4 1000 1000 scnRnd := by
    rw [gen_fixture_eval]; simp
  have hm1 : scnP1 ∈ generatePuzzlePieces 100 100 4 1000 1000 scnRnd := by
    rw [gen_fixture_eval]; simp
  have ho0 : organicPiece 2 orgDn 1000 1000 scnRnd 0
      [((0 : ℝ), (0 : ℝ)), (1, 0), (0, 1), (0, 0)]
      ∈ generateOrganicPieces 2 orgDn orgCell 1000 1000 scnRnd := by
    rw [org_fixture_eval]; simp
  have ho1 : organicPiece 2 orgDn 1000 1000 scnRnd 1
      [((0 : ℝ), (0 : ℝ)), (1, 0), (0, 1), (0, 0)]
      ∈ generateOrganicPieces 2 orgDn orgCell 1000 1000 scnRnd := by
    rw [org_fixture_eval]; simp
  exact ⟨hm0, hm1,
    C9_neighbor_symmetry.1 100 100 1000 1000 4 scnRnd scnP0 scnP1 hm0 hm1,
    orgDn_bound, ho0, ho1,
    C9_neighbor_symmetry.2 2 orgDn orgCell 1000 1000 scnRnd _ _ orgDn_bound
      ho0 ho1⟩

end Puzzle
